import Mathlib

/-!
Verification development for `src/scripts/get_weather.py`: a shallow embedding
of the script's pure resolution/normalization core (temporal-query parsing,
source selection, alert prioritization, accumulation extraction, AQI category
lookup, moon-phase computation, observation/forecast comparison, and the
orchestrating `main`), together with theorems settling the specification's
claims about it.

Conventions of the embedding:
* Python floats are embedded as `ℚ` (the numeric literals of the source are
  exact decimals); machine-float rounding is not modelled.
* Python strings are embedded as `String` / `List Char`; matching against the
  source's regular expressions is embedded by hand-rolled scanners, each
  carrying a comment with the original pattern and the reasoning that the
  scanner implements exactly that pattern's leftmost match.
* `None` results and absent JSON keys are embedded as `Option`.
* External capabilities (HTTP fetches, the datetime parsing/formatting
  library) are parameters of the embedded functions; the embedded `main`
  receives an environment holding each endpoint's response.
-/

namespace Weather

/-- The characters of a string literal. -/
def cs (s : String) : List Char := s.data

/-- Python's `\s` character class (ASCII range): space, tab, newline,
carriage return, vertical tab, form feed. -/
def pyWs (c : Char) : Bool :=
  c == ' ' || c == '\t' || c == '\n' || c == '\r' || c == '\x0b' || c == '\x0c'

/-- Python's `\d` character class (ASCII range): `0`-`9`. -/
def pyDigit (c : Char) : Bool := c.isDigit

/-- Python's `str.lower` (the inputs of interest are ASCII). -/
def lowerCs (s : String) : List Char := s.data.map Char.toLower

/-- Match a literal (given in lowercase) case-sensitively at the head of the
input; return the rest after it. -/
def litPre : List Char → List Char → Option (List Char)
  | [], s => some s
  | _ :: _, [] => none
  | p :: ps, c :: rest => if c = p then litPre ps rest else none

/-- Match a literal (given in lowercase) case-insensitively (`re.IGNORECASE`)
at the head of the input; return the rest after it. -/
def litPreCI : List Char → List Char → Option (List Char)
  | [], s => some s
  | _ :: _, [] => none
  | p :: ps, c :: rest => if c.toLower = p then litPreCI ps rest else none

/-- Python's `sub in s` substring test. -/
def containsSub (sub : List Char) : List Char → Bool
  | [] => sub.isEmpty
  | c :: rest => (litPre sub (c :: rest)).isSome || containsSub sub rest

/-- `\s+` (greedy): at least one whitespace character, consumed maximally. -/
def takeWs1 : List Char → Option (List Char)
  | c :: rest => if pyWs c then some (rest.dropWhile pyWs) else none
  | [] => none

/-- `\d+` (greedy): at least one digit, consumed maximally. -/
def takeDigits1 : List Char → Option (List Char)
  | c :: rest => if pyDigit c then some (rest.dropWhile pyDigit) else none
  | [] => none

/-- Python's `$` in a pattern without `re.MULTILINE`: the end of the string,
or the position just before a single trailing newline. -/
def atEnd : List Char → Bool
  | [] => true
  | ['\n'] => true
  | _ => false

/- The eight substitution patterns of `strip_temporal_qualifiers`
(get_weather.py lines 133-142), each embedded as a matcher that either
matches the pattern at the head of the input (returning the rest after the
matched span) or fails.  In every pattern the character-class runs (`\s+`,
`\d+`, `\s*`, `.*`) are followed by text disjoint from the class, so the
greedy maximal run is the unique viable one and no backtracking can occur. -/

/-- `r'\s+at\s+\d+.*?(?:am|pm)?'`.  The lazy `.*?` always matches the empty
string: everything after it in the pattern is optional, so its first (empty)
alternative always completes the match.  Hence `am`/`pm` is consumed only when
it sits immediately after the digits. -/
def matchAtNum (s : List Char) : Option (List Char) := do
  let s ← takeWs1 s
  let s ← litPreCI (cs "at") s
  let s ← takeWs1 s
  let s ← takeDigits1 s
  some (((litPreCI (cs "am") s).getD ((litPreCI (cs "pm") s).getD s)))

/-- `r'\s+tonight\s*$'`. -/
def matchTonightEnd (s : List Char) : Option (List Char) := do
  let s ← takeWs1 s
  let s ← litPreCI (cs "tonight") s
  let s := s.dropWhile pyWs
  if atEnd s then some s else none

/-- `r'\s+this afternoon\s*$'`. -/
def matchThisAfternoonEnd (s : List Char) : Option (List Char) := do
  let s ← takeWs1 s
  let s ← litPreCI (cs "this afternoon") s
  let s := s.dropWhile pyWs
  if atEnd s then some s else none

/-- `r'\s+tomorrow\s*(?:morning|afternoon|night)?\s*$'`. -/
def matchTomorrowEnd (s : List Char) : Option (List Char) := do
  let s ← takeWs1 s
  let s ← litPreCI (cs "tomorrow") s
  let s := s.dropWhile pyWs
  let s := (litPreCI (cs "morning") s).getD
    ((litPreCI (cs "afternoon") s).getD ((litPreCI (cs "night") s).getD s))
  let s := s.dropWhile pyWs
  if atEnd s then some s else none

/-- `r'\s+when will.*$'` (`.` matches anything but a newline). -/
def matchWhenWillEnd (s : List Char) : Option (List Char) := do
  let s ← takeWs1 s
  let s ← litPreCI (cs "when will") s
  let s := s.dropWhile (fun c => !(c == '\n'))
  if atEnd s then some s else none

/-- `r'\s+how long until.*$'`. -/
def matchHowLongEnd (s : List Char) : Option (List Char) := do
  let s ← takeWs1 s
  let s ← litPreCI (cs "how long until") s
  let s := s.dropWhile (fun c => !(c == '\n'))
  if atEnd s then some s else none

/-- `r'\s+at\s+\d+:\d+.*$'`. -/
def matchAtTimeEnd (s : List Char) : Option (List Char) := do
  let s ← takeWs1 s
  let s ← litPreCI (cs "at") s
  let s ← takeWs1 s
  let s ← takeDigits1 s
  let s ← litPre (cs ":") s
  let s ← takeDigits1 s
  let s := s.dropWhile (fun c => !(c == '\n'))
  if atEnd s then some s else none

/-- `r'\s+\d+\s*(?:am|pm)\s*$'`. -/
def matchNumAmPmEnd (s : List Char) : Option (List Char) := do
  let s ← takeWs1 s
  let s ← takeDigits1 s
  let s := s.dropWhile pyWs
  let s ← (litPreCI (cs "am") s) <|> (litPreCI (cs "pm") s)
  let s := s.dropWhile pyWs
  if atEnd s then some s else none

/-- `re.sub(pattern, '', s)`: scan left to right; wherever the pattern
matches, drop the matched span and continue after it, otherwise keep the
character.  Every pattern above consumes at least one character, so a fuel of
`s.length` steps always suffices. -/
def subPatAux (m : List Char → Option (List Char)) : ℕ → List Char → List Char
  | _, [] => []
  | 0, s => s
  | fuel + 1, c :: rest =>
    match m (c :: rest) with
    | some r => subPatAux m fuel r
    | none => c :: subPatAux m fuel rest

def subPat (m : List Char → Option (List Char)) (s : List Char) : List Char :=
  subPatAux m s.length s

/-- Python's `str.strip()`: drop whitespace from both ends. -/
def pyStrip (s : List Char) : List Char :=
  ((s.dropWhile pyWs).reverse.dropWhile pyWs).reverse

/-- get_weather.py lines 130-146: apply the eight `re.sub` substitutions in
order, then `strip()`. -/
def strip_temporal_qualifiers (text : String) : String :=
  let r := text.data
  let r := subPat matchAtNum r
  let r := subPat matchTonightEnd r
  let r := subPat matchThisAfternoonEnd r
  let r := subPat matchTomorrowEnd r
  let r := subPat matchWhenWillEnd r
  let r := subPat matchHowLongEnd r
  let r := subPat matchAtTimeEnd r
  let r := subPat matchNumAmPmEnd r
  String.mk (pyStrip r)

/-- `re.search(pattern, s)` as a boolean: does the pattern match at some
position? -/
def searchPat (m : List Char → Option (List Char)) : List Char → Bool
  | [] => (m []).isSome
  | c :: rest => (m (c :: rest)).isSome || searchPat m rest

/-- `r'tonight at\s+\d+'`. -/
def matchTonightAtNum (s : List Char) : Option (List Char) := do
  let s ← litPre (cs "tonight at") s
  let s ← takeWs1 s
  takeDigits1 s

/-- `r'tomorrow at\s+\d+'`. -/
def matchTomorrowAtNum (s : List Char) : Option (List Char) := do
  let s ← litPre (cs "tomorrow at") s
  let s ← takeWs1 s
  takeDigits1 s

/-- `r'\d+\s*(?:am|pm|AM|PM)'` (matched against the lowercased query, so the
uppercase alternatives are dead; they are kept for fidelity). -/
def matchNumAmPm (s : List Char) : Option (List Char) := do
  let s ← takeDigits1 s
  let s := s.dropWhile pyWs
  (litPre (cs "am") s) <|> (litPre (cs "pm") s) <|>
    (litPre (cs "AM") s) <|> (litPre (cs "PM") s)

/-- `r'at\s+\d+'`. -/
def matchAtNumPat (s : List Char) : Option (List Char) := do
  let s ← litPre (cs "at") s
  let s ← takeWs1 s
  takeDigits1 s

/-- `r'\d+:\d+'`. -/
def matchColonTime (s : List Char) : Option (List Char) := do
  let s ← takeDigits1 s
  let s ← litPre (cs ":") s
  takeDigits1 s

/-- get_weather.py lines 149-155 with the pattern list of lines 27-45:
`re.search` of each `TEMPORAL_PATTERNS` entry against the lowercased query
(a literal pattern's search is a substring test). -/
def is_temporal_query (location : String) : Bool :=
  let l := lowerCs location
  searchPat matchTonightAtNum l ||
  containsSub (cs "tonight") l ||
  containsSub (cs "this afternoon") l ||
  containsSub (cs "tomorrow morning") l ||
  containsSub (cs "tomorrow afternoon") l ||
  containsSub (cs "tomorrow night") l ||
  searchPat matchTomorrowAtNum l ||
  containsSub (cs "tomorrow") l ||
  searchPat matchNumAmPm l ||
  searchPat matchAtNumPat l ||
  containsSub (cs "when will") l ||
  containsSub (cs "how long until") l ||
  containsSub (cs "stop raining") l ||
  containsSub (cs "stop snowing") l ||
  containsSub (cs "start raining") l ||
  containsSub (cs "start snowing") l ||
  searchPat matchColonTime l

/-- `'am'` / `'pm'` as captured by group 3 of the time pattern. -/
inductive Meridiem
  | am
  | pm
deriving DecidableEq, Repr

/-- Value of an ASCII digit character. -/
def digitVal (c : Char) : ℕ := c.toNat - '0'.toNat

/-- Python's `int` on a non-empty decimal digit string. -/
def natOfDigits (ds : List Char) : ℕ := ds.foldl (fun a c => 10 * a + digitVal c) 0

/-- `re.search(r'(\d+):?(\d*)?\s*(am|pm)?', text)` (get_weather.py line 164).
Everything after `(\d+)` is optional, so the leftmost match starts at the
first digit of the string; `(\d+)` takes the maximal digit run (group 1),
`:?` consumes a following colon if present, `(\d*)` the digit run after it
(group 2), `\s*` the following whitespace, and `(am|pm)` (group 3) matches
only right there.  Each run is followed by text disjoint from its character
class, so the greedy maximal runs are the unique viable ones. -/
def findFirstTime : List Char → Option (ℕ × ℕ × Option Meridiem)
  | [] => none
  | c :: rest =>
    if pyDigit c then
      let hds := (c :: rest).takeWhile pyDigit
      let s1 := (c :: rest).dropWhile pyDigit
      let mds := match s1 with
        | ':' :: r => r.takeWhile pyDigit
        | _ => []
      let s2 := match s1 with
        | ':' :: r => r.dropWhile pyDigit
        | _ => s1
      let s3 := s2.dropWhile pyWs
      let ap : Option Meridiem :=
        if (litPre (cs "am") s3).isSome then some .am
        else if (litPre (cs "pm") s3).isSome then some .pm
        else none
      -- `minute = int(time_match.group(2)) if time_match.group(2) else 0`
      some (natOfDigits hds, (if mds.isEmpty then 0 else natOfDigits mds), ap)
    else findFirstTime rest

/-- A naive `datetime`: a day number plus time-of-day fields.  A value
produced by Python's datetime library always satisfies `DT.valid`. -/
structure DT where
  day : ℤ
  hour : ℕ
  minute : ℕ
  second : ℕ
  micro : ℕ
deriving DecidableEq, Repr

/-- Microseconds since the epoch of day 0; datetime comparison and
`timedelta` arithmetic act on this value. -/
def DT.toMicro (t : DT) : ℤ :=
  (((t.day * 24 + (t.hour : ℤ)) * 60 + (t.minute : ℤ)) * 60 + (t.second : ℤ)) * 1000000
    + (t.micro : ℤ)

/-- The field ranges of a real `datetime`. -/
def DT.valid (t : DT) : Prop :=
  t.hour < 24 ∧ t.minute < 60 ∧ t.second < 60 ∧ t.micro < 1000000

instance (t : DT) : Decidable t.valid := by unfold DT.valid; infer_instance

/-- Result of `parse_target_time`: a datetime, Python `None`, or an uncaught
`ValueError` from `datetime.replace` (hour or minute out of range). -/
inductive PTRes
  | time (t : DT)
  | noTime
  | err
deriving DecidableEq, Repr

/-- get_weather.py lines 158-198.  The explicit-time branch zeroes second and
microsecond (`now.replace(hour=..., minute=..., second=0, microsecond=0)`)
and rolls one day forward when the target is before `now`; the relative
branches only replace hour and minute, keeping `now`'s second/microsecond. -/
def parse_target_time (location : String) (now : DT) : PTRes :=
  let l := lowerCs location
  match findFirstTime l with
  | some (h, m, ap) =>
    let hour := if ap = some Meridiem.pm ∧ h ≠ 12 then h + 12
      else if ap = some Meridiem.am ∧ h = 12 then 0
      else h
    if hour ≤ 23 ∧ m ≤ 59 then
      let target : DT := ⟨now.day, hour, m, 0, 0⟩
      PTRes.time (if target.toMicro < now.toMicro then { target with day := target.day + 1 }
        else target)
    else PTRes.err
  | none =>
    if containsSub (cs "tomorrow") l then
      if containsSub (cs "morning") l then PTRes.time ⟨now.day + 1, 8, 0, now.second, now.micro⟩
      else if containsSub (cs "afternoon") l then
        PTRes.time ⟨now.day + 1, 14, 0, now.second, now.micro⟩
      else if containsSub (cs "night") l then
        PTRes.time ⟨now.day + 1, 20, 0, now.second, now.micro⟩
      else PTRes.time ⟨now.day + 1, 12, 0, now.second, now.micro⟩
    else if containsSub (cs "tonight") l then
      if now.hour < 20 then PTRes.time ⟨now.day, 20, 0, now.second, now.micro⟩
      else PTRes.time ⟨now.day + 1, 20, 0, now.second, now.micro⟩
    else if containsSub (cs "this afternoon") l then
      let target : DT := ⟨now.day, 15, 0, now.second, now.micro⟩
      if now.toMicro < target.toMicro then PTRes.time target else PTRes.noTime
    else PTRes.time now

/-! Rounding and integer formatting. -/

/-- Python's `round` to an integer: round half to even (the source's values
are exact decimals, embedded exactly in `ℚ`). -/
def roundHalfEven (q : ℚ) : ℤ :=
  let f := ⌊q⌋
  let r := q - f
  if r < 1/2 then f
  else if 1/2 < r then f + 1
  else if f % 2 = 0 then f else f + 1

/-- Python's `round(x)`. -/
def pyRoundInt (q : ℚ) : ℤ := roundHalfEven q

/-- Python's `round(x, nd)`. -/
def pyRound (q : ℚ) (nd : ℕ) : ℚ := (roundHalfEven (q * 10 ^ nd) : ℚ) / 10 ^ nd

/-- The decimal digit character for `d < 10`. -/
def decDigit (d : ℕ) : Char :=
  if d = 0 then '0' else if d = 1 then '1' else if d = 2 then '2' else if d = 3 then '3'
  else if d = 4 then '4' else if d = 5 then '5' else if d = 6 then '6' else if d = 7 then '7'
  else if d = 8 then '8' else '9'

/-- Decimal digits of `n`, most significant first (`fuel ≥ n` suffices since
`n / 10 < n` for `n > 0`). -/
def natDigits : ℕ → ℕ → List Char
  | 0, _ => []
  | _ + 1, 0 => []
  | fuel + 1, n + 1 => natDigits fuel ((n + 1) / 10) ++ [decDigit ((n + 1) % 10)]

/-- Python's `str` on a natural number. -/
def natStr (n : ℕ) : List Char :=
  if n = 0 then cs "0" else natDigits n n

/-- Python's `str` on an `int` (as used in f-string interpolation). -/
def intStr (n : ℤ) : List Char :=
  if n < 0 then '-' :: natStr n.natAbs else natStr n.toNat

/-! SourceSelector. -/

/-- get_weather.py lines 201-204: `24 <= lat <= 49 and -125 <= lon <= -66`. -/
def is_us_location (lat lon : ℚ) : Bool :=
  decide (24 ≤ lat ∧ lat ≤ 49 ∧ -125 ≤ lon ∧ lon ≤ -66)

/-- main's source-selection block, get_weather.py lines 1486-1493
(`use_nws` starts out `False`, so any other preference string leaves it
`False`). -/
def selectSource (source_pref : String) (lat lon : ℚ) : Bool :=
  if source_pref = "nws" then true
  else if source_pref = "wttr" then false
  else if source_pref = "auto" then is_us_location lat lon
  else false

/-! AlertPrioritizer. -/

/-- get_weather.py lines 64-70, read through `.get(severity, 0)`:
an unrecognized string weighs 0. -/
def ALERT_SEVERITY_WEIGHTS (s : String) : ℕ :=
  if s = "Extreme" then 4 else if s = "Severe" then 3 else if s = "Moderate" then 2
  else if s = "Minor" then 1 else if s = "Unknown" then 0 else 0

/-- get_weather.py lines 72-77, read through `.get(urgency, 0)`. -/
def ALERT_URGENCY_WEIGHTS (s : String) : ℕ :=
  if s = "Immediate" then 3 else if s = "Expected" then 2 else if s = "Future" then 1
  else if s = "Unknown" then 0 else 0

/-- get_weather.py lines 79-84, read through `.get(certainty, 0)`. -/
def ALERT_CERTAINTY_WEIGHTS (s : String) : ℕ :=
  if s = "Observed" then 3 else if s = "Likely" then 2 else if s = "Possible" then 1
  else if s = "Unknown" then 0 else 0

/-- The `properties` object of an alert feature; each field read with a
default (`.get('severity', 'Unknown')` etc.), so absent keys are `none`. -/
structure AlertProps where
  event : Option String := none
  severity : Option String := none
  urgency : Option String := none
  certainty : Option String := none
deriving DecidableEq, Repr

/-- An alert feature: `alert.get('properties', {})`. -/
structure Alert where
  properties : Option AlertProps := none
deriving DecidableEq, Repr

/-- get_weather.py lines 826-836. -/
def calculate_alert_priority (alert_props : AlertProps) : ℕ :=
  let severity := alert_props.severity.getD "Unknown"
  let urgency := alert_props.urgency.getD "Unknown"
  let certainty := alert_props.certainty.getD "Unknown"
  ALERT_SEVERITY_WEIGHTS severity + ALERT_URGENCY_WEIGHTS urgency +
    ALERT_CERTAINTY_WEIGHTS certainty

/-- `get_priority` of get_weather.py lines 841-843. -/
def alertPriority (alert : Alert) : ℕ :=
  calculate_alert_priority (alert.properties.getD {})

/-- Stable descending insertion: `a` is placed before the first element whose
priority is not greater, so among equal priorities earlier input stays
first. -/
def insertByPriority (a : Alert) : List Alert → List Alert
  | [] => [a]
  | b :: t =>
    if alertPriority a < alertPriority b then b :: insertByPriority a t
    else a :: b :: t

/-- get_weather.py lines 839-845: `sorted(alerts, key=get_priority,
reverse=True)`.  Python's `sorted` is stable and `reverse=True` keeps equal
keys in input order; those two properties determine the output uniquely, and
the stable insertion sort below computes exactly that output. -/
def sort_alerts_by_priority (alerts : List Alert) : List Alert :=
  alerts.foldr insertByPriority []

/-! AQI categories. -/

structure AqiCategoryInfo where
  name : String
  emoji : String
  color : String
  recommendation : String
deriving DecidableEq, Repr

def goodInfo : AqiCategoryInfo :=
  ⟨"Good", "🟢", "green", "Air quality is satisfactory. Enjoy your outdoor activities!"⟩

def moderateInfo : AqiCategoryInfo :=
  ⟨"Moderate", "🟡", "yellow",
    "Sensitive groups should consider limiting prolonged outdoor exertion."⟩

def sensitiveGroupsInfo : AqiCategoryInfo :=
  ⟨"Unhealthy for Sensitive Groups", "🟠", "orange",
    "Children, elderly, and those with respiratory/heart conditions should limit outdoor activities."⟩

def unhealthyInfo : AqiCategoryInfo :=
  ⟨"Unhealthy", "🔴", "red",
    "Everyone should reduce prolonged outdoor exertion. Sensitive groups: avoid outdoor activities."⟩

def veryUnhealthyInfo : AqiCategoryInfo :=
  ⟨"Very Unhealthy", "🟣", "purple",
    "Avoid outdoor activities. Everyone may experience health effects."⟩

def hazardousInfo : AqiCategoryInfo :=
  ⟨"Hazardous", "🔵", "maroon",
    "Health alert: everyone may experience serious health effects. Stay indoors."⟩

/-- get_weather.py lines 48-61, in insertion order (a `dict` iterates in
insertion order). -/
def AQI_CATEGORIES : List ((ℚ × ℚ) × AqiCategoryInfo) :=
  [((0, 50), goodInfo), ((51, 100), moderateInfo), ((101, 150), sensitiveGroupsInfo),
   ((151, 200), unhealthyInfo), ((201, 300), veryUnhealthyInfo), ((301, 500), hazardousInfo)]

/-- get_weather.py lines 374-379: first band with `low <= aqi <= high`, else
`AQI_CATEGORIES[(301, 500)]` (the Hazardous entry). -/
def parse_aqi_category (aqi : ℚ) : AqiCategoryInfo :=
  match AQI_CATEGORIES.find? (fun e => decide (e.1.1 ≤ aqi ∧ aqi ≤ e.1.2)) with
  | some e => e.2
  | none => hazardousInfo

/-! UnitConverter. -/

/-- get_weather.py lines 743-747 (numeric case; the `None` guard is applied
at the call sites via `Option.map`). -/
def convert_c_to_f (celsius : ℚ) : ℚ := (celsius * 9/5) + 32

/-! AstronomicalCalculator: moon phase. -/

/-- get_weather.py lines 423-432. -/
def moon_phase_names : List String :=
  ["🌑 New Moon", "🌒 Waxing Crescent", "🌓 First Quarter", "🌔 Waxing Gibbous",
   "🌕 Full Moon", "🌖 Waning Gibbous", "🌗 Last Quarter", "🌘 Waning Crescent"]

/-- get_weather.py lines 434-437: the illumination assigned to a phase index.
`illumination = (1 - abs(phase - 4) / 4) * 100`, overridden for `phase > 4`
by `(2 - abs(phase - 4) / 4) * 100`. -/
def moonIllumination (phase : ℕ) : ℚ :=
  let base := (1 - |(phase : ℚ) - 4| / 4) * 100
  if 4 < phase then (2 - |(phase : ℚ) - 4| / 4) * 100 else base

/-- Python's `%` on floats with a positive modulus. -/
def pyMod (a b : ℚ) : ℚ := a - b * ⌊a / b⌋

/-- get_weather.py lines 400-446, for a parsed date: `diffDays` is
`(date - known_new_moon).total_seconds() / 86400`, the datetime capability's
contribution.  `int` truncates, and `days_into_cycle / lunar_cycle * 8` is
nonnegative, so `int` is the floor here.  Returns (phase, name,
illumination). -/
def calculate_moon_phase (diffDays : ℚ) : ℕ × String × ℚ :=
  let lunar_cycle : ℚ := 29.53059
  let days_into_cycle := pyMod diffDays lunar_cycle
  let phase := (Int.toNat ⌊days_into_cycle / lunar_cycle * 8⌋) % 8
  (phase, moon_phase_names.getD phase "🌑 New Moon",
    pyRound (moonIllumination phase) 1)

/-! ObservationComparator: the temperature line of `format_observation`. -/

/-- get_weather.py lines 940-948: `temp_str`, the observed temperature with
the optional forecast comparison (`diff = round(temp_f - forecast_temp)`;
`abs(diff) <= 2` → matches, `diff > 0` → warmer, else cooler). -/
def observationTempStr (temp_f : ℚ) : Option ℚ → String
  | none => String.mk (intStr (pyRoundInt temp_f) ++ cs "°F")
  | some forecast_temp =>
    let diff := pyRoundInt (temp_f - forecast_temp)
    if |diff| ≤ 2 then
      String.mk (intStr (pyRoundInt temp_f) ++ cs "°F (matches forecast 🎯)")
    else if 0 < diff then
      String.mk (intStr (pyRoundInt temp_f) ++ cs "°F (" ++ intStr diff ++
        cs "° warmer than " ++ intStr (pyRoundInt forecast_temp) ++ cs "° forecast)")
    else
      String.mk (intStr (pyRoundInt temp_f) ++ cs "°F (" ++ intStr |diff| ++
        cs "° cooler than " ++ intStr (pyRoundInt forecast_temp) ++ cs "° forecast)")

/-! AccumulationExtractor. -/

/-- An entry of a grid time series: `item.get('value', 0)` treats an absent
key as `0` and a JSON `null` as `None`; both fail the `value and value > 0`
test, so both are embedded as `none`. -/
structure GridItem where
  value : Option ℚ := none
  validTime : String := ""
deriving DecidableEq, Repr

/-- A grid series: `.get('values', [])` and `.get('uom', '')`. -/
structure GridSeries where
  values : List GridItem := []
  uom : String := ""
deriving DecidableEq, Repr

/-- The grid `properties` payload (each series read with a `{}` default). -/
structure GridData where
  probabilityOfPrecipitation : Option GridSeries := none
  snowfallAmount : Option GridSeries := none
  iceAccumulation : Option GridSeries := none
deriving DecidableEq, Repr

/-- An accumulation event as appended by `extract_accumulations_from_grid`
(the dicts of get_weather.py lines 1212-1218, 1234-1240, 1254-1260). -/
structure AccumulationEvent where
  type : String
  amount : ℚ
  unit : String
  time : String
  icon : String
deriving DecidableEq, Repr

/-- The inner `to_inches` of `extract_accumulations_from_grid`
(get_weather.py lines 1187-1197): `if not value or value <= 0: return 0`,
then the unit-substring chain `mm` / `cm` / `m`. -/
def to_inches (value : ℚ) (unit : String) : ℚ :=
  if value = 0 ∨ value ≤ 0 then 0
  else if containsSub (cs "mm") unit.data then value * 0.03937
  else if containsSub (cs "cm") unit.data then value * 0.3937
  else if containsSub (cs "m") unit.data then value * 39.37
  else value

/-- `valid_time.split('/')[0] if '/' in valid_time else valid_time`. -/
def timePart (valid_time : String) : String :=
  if containsSub (cs "/") valid_time.data then
    String.mk (valid_time.data.takeWhile (fun c => !(c == '/')))
  else valid_time

/-- One iteration of the snowfall loop (get_weather.py lines 1200-1220).
`pt` abstracts the datetime capability: `parse_iso_datetime` followed by
`strftime('%a %I%p').lower().replace(':00', '')`, returning `none` when the
parse fails. -/
def snowItemEvent (pt : String → Option String) (snow_unit : String) (item : GridItem) :
    Option AccumulationEvent :=
  match item.value with
  | none => none
  | some v =>
    if v ≠ 0 ∧ 0 < v then
      if containsSub (cs "T") item.validTime.data then
        match pt (timePart item.validTime) with
        | some time_str =>
          let inches := to_inches v snow_unit
          if 0.1 ≤ inches then
            some ⟨"Snow", pyRound inches 1, "inches", time_str, ""⟩
          else none
        | none => none
      else none
    else none

/-- One iteration of the ice loop (get_weather.py lines 1223-1242). -/
def iceItemEvent (pt : String → Option String) (ice_unit : String) (item : GridItem) :
    Option AccumulationEvent :=
  match item.value with
  | none => none
  | some v =>
    if v ≠ 0 ∧ 0 < v then
      match pt (timePart item.validTime) with
      | some time_str =>
        let inches := to_inches v ice_unit
        if 0.01 ≤ inches then
          some ⟨"Ice", pyRound inches 2, "inches", time_str, ""⟩
        else none
      | none => none
    else none

/-- One iteration of the precipitation-probability loop (get_weather.py
lines 1245-1262): `if value and value >= 30`, the value kept as a percent. -/
def popItemEvent (pt : String → Option String) (item : GridItem) :
    Option AccumulationEvent :=
  match item.value with
  | none => none
  | some v =>
    if v ≠ 0 ∧ 30 ≤ v then
      match pt (timePart item.validTime) with
      | some time_str => some ⟨"Precipitation Chance", v, "percent", time_str, ""⟩
      | none => none
    else none

/-- get_weather.py lines 1167-1264: the three loops over the first 8 entries
of each series, appending snow, then ice, then precipitation-probability
events to one list. -/
def extract_accumulations_from_grid (pt : String → Option String) :
    Option GridData → List AccumulationEvent
  | none => []
  | some gd =>
    let pop_vals := (gd.probabilityOfPrecipitation.map GridSeries.values).getD []
    let snow_vals := (gd.snowfallAmount.map GridSeries.values).getD []
    let ice_vals := (gd.iceAccumulation.map GridSeries.values).getD []
    let snow_unit := (gd.snowfallAmount.map GridSeries.uom).getD ""
    let ice_unit := (gd.iceAccumulation.map GridSeries.uom).getD ""
    ((snow_vals.take 8).filterMap (snowItemEvent pt snow_unit)) ++
      ((ice_vals.take 8).filterMap (iceItemEvent pt ice_unit)) ++
      ((pop_vals.take 8).filterMap (popItemEvent pt))

/-- Truncate a series to its first 8 entries. -/
def truncateGridSeries (s : GridSeries) : GridSeries :=
  { s with values := s.values.take 8 }

/-- Truncate every series of a grid payload to its first 8 entries. -/
def truncateGrid (gd : GridData) : GridData :=
  ⟨gd.probabilityOfPrecipitation.map truncateGridSeries,
   gd.snowfallAmount.map truncateGridSeries,
   gd.iceAccumulation.map truncateGridSeries⟩

/-! ResolutionOrchestrator: the pure control flow of `main`
(get_weather.py lines 1441-1634).  HTTP fetches are abstracted by an
environment holding each endpoint's response (`None` both for a transport
error and for a falsy payload, which the code treats alike), and the
presentation layer (`format_*`) is abstracted by opaque output blocks
carrying the data each formatter was called with. -/

/-- A forecast period, with the fields `main` reads (each through `.get`
with the shown default). -/
structure Period where
  name : String := ""
  startTime : String := ""
  temperature : Option ℚ := none
  detailedForecast : String := ""
deriving DecidableEq, Repr

/-- A forecast `properties` payload: `.get('periods', [])`. -/
structure ForecastProps where
  periods : List Period := []
deriving DecidableEq, Repr

/-- `gridpoint.get('astronomicalData', {})` fields. -/
structure AstroData where
  sunrise : Option String := none
  sunset : Option String := none
  civilTwilightBegin : Option String := none
  civilTwilightEnd : Option String := none
deriving DecidableEq, Repr

/-- The gridpoint `properties` payload.  The sub-resource URLs it carries
are consumed by the abstracted fetches; only `astronomicalData` is read
directly by `main`'s pure code. -/
structure Gridpoint where
  astronomicalData : Option AstroData := none
deriving DecidableEq, Repr

/-- get_weather.py lines 384-397: returns the astronomical fields, `None`
when the key is absent or empty. -/
def get_astronomical_data (gp : Gridpoint) : Option AstroData :=
  gp.astronomicalData

/-- A station observation payload (opaque to `main`; it is passed whole to
`format_observation`). -/
structure Obs where
  temperature : Option ℚ := none
  textDescription : String := "Unknown"
deriving DecidableEq, Repr

/-- An AirNow reading (opaque to `main`). -/
structure AqiReading where
  aqi : ℚ := 0
  categoryName : String := "Unknown"
  parameterName : String := "PM2.5"
  dateForecast : String := ""
deriving DecidableEq, Repr

/-- A TAF payload (opaque to `main`). -/
structure TafData where
  stationId : String := "Unknown"
  rawTAF : String := ""
deriving DecidableEq, Repr

/-- A fire-weather forecast payload (opaque to `main`). -/
structure FireData where
  text : String := ""
deriving DecidableEq, Repr

/-- A wttr.in current-conditions line, split on `|`. -/
structure WttrCurrent where
  condition : String := "Unknown"
  temp : String := ""
  wind : String := ""
  humidity : String := ""
  precip : String := ""
deriving DecidableEq, Repr

/-- One entry of `main`'s `outputs` list: the result of one `format_*` call
(or one of the literal strings `main` appends), carrying the data the
formatter was called with.  `blankLine` is an appended `""`. -/
inductive Block
  | hourlyOut (periods : List Period) (name : String) (target : Option DT)
  | nwsOut (forecast : ForecastProps) (alerts : List Alert) (name : String)
  | enhancedAlerts (alerts : List Alert)
  | accumsOut (accums : List AccumulationEvent) (name : String) (periods : List Period)
  | obsOut (obs : Obs) (forecastTemp : Option ℚ)
  | obsUnavailableHdr
  | obsUnavailableTxt
  | aqiOut (current : Option (List AqiReading)) (forecast : Option (List AqiReading))
      (name : String)
  | astroOut (astro : AstroData) (name : String)
  | tafOut (taf : TafData) (name : String)
  | tafUnavailableHdr (name : String)
  | tafUnavailableTxt
  | fireOut (fire : Option FireData) (fireAlerts : List Alert) (name : String)
  | aqiNoteHdr (name : String)
  | aqiNoteTxt
  | blankLine
  | wttrOut (forecastText : Option String) (current : Option WttrCurrent) (name : String)
deriving DecidableEq, Repr

/-- A fetch performed by `main` (in program order). -/
inductive Call
  | geocodeC
  | gridpointC
  | stationObsC
  | hourlyC
  | forecastC
  | alertsC
  | gridDataC
  | aqiCurrentC
  | aqiForecastC
  | tafC
  | fireC
  | wttrForecastC
  | wttrCurrentC
deriving DecidableEq, Repr

/-- The observable outcome of one invocation. -/
inductive RunResult
  | crashed
  | locationNotFound
  | output (blocks : List Block)
  | fetchFailed
deriving DecidableEq, Repr

/-- The environment of one invocation: each endpoint's response.  `none`
stands both for a fetch error and for a falsy payload, which `main`'s
truthiness tests treat alike.  `geocode` is applied to the
qualifier-stripped query; the wttr fetches to the original query. -/
structure Env where
  geocode : String → Option (ℚ × ℚ × String)
  gridpoint : Option Gridpoint := none
  hourlyForecast : Option ForecastProps := none
  forecast : Option ForecastProps := none
  alerts : List Alert := []
  stationObs : Option Obs := none
  gridData : Option GridData := none
  aqiCurrent : Option (List AqiReading) := none
  aqiForecast : Option (List AqiReading) := none
  taf : Option TafData := none
  fire : Option FireData := none
  wttrForecast : String → Option String
  wttrCurrent : String → Option WttrCurrent

/-- The command-line options of get_weather.py lines 1441-1472. -/
structure Options where
  location : String
  source_pref : String := "auto"
  show_aqi : Bool := false
  force_hourly : Bool := false
  show_current : Bool := false
  show_astro : Bool := false
  show_taf : Bool := false
  show_fire : Bool := false

/-- get_weather.py lines 1515-1522: the first hourly period whose (parsed)
start time is within one hour of `now` supplies the comparison temperature.
`pdt` abstracts `parse_iso_datetime` plus the naive-timezone stripping. -/
def hourlyForecastTemp (pdt : String → Option DT) (now : DT) (periods : List Period) :
    Option ℚ :=
  match periods.find? (fun p =>
      match pdt p.startTime with
      | some t => decide (|t.toMicro - now.toMicro| < 3600000000)
      | none => false) with
  | some p => p.temperature
  | none => none

/-- get_weather.py lines 1563-1564: the winter-relevance keyword test on the
lowercased original query. -/
def winterQuery (location : String) : Bool :=
  let l := lowerCs location
  containsSub (cs "snow") l || containsSub (cs "storm") l ||
  containsSub (cs "accumulation") l || containsSub (cs "january") l ||
  containsSub (cs "february") l || containsSub (cs "march") l

/-- `check_fire_alerts` (get_weather.py lines 679-692): the alerts whose
lowercased event names a fire term. -/
def fireAlertsOf (alerts : List Alert) : List Alert :=
  alerts.filter (fun a =>
    let ev := ((a.properties.getD {}).event.getD "").data.map Char.toLower
    containsSub (cs "red flag") ev || containsSub (cs "fire weather") ev ||
      containsSub (cs "fire warning") ev)

/-- Python's `list.insert(1, x)`. -/
def pyInsert1 {α : Type} (l : List α) (b : α) : List α :=
  match l with
  | [] => [b]
  | x :: t => x :: b :: t

/-- get_weather.py lines 1508-1567: the forecast part of the regional
branch.  Returns (outputs appended, `forecast_temp`, fetches made). -/
def forecastSection (env : Env) (opts : Options) (now : DT) (pdt : String → Option DT)
    (pts : String → Option String) (temporal_detected : Bool) (target_time : Option DT)
    (current_obs : Option Obs) (display_name : String) :
    List Block × Option ℚ × List Call :=
  if temporal_detected then
    match env.hourlyForecast with
    | some hf =>
      let ftemp := if opts.show_current ∧ current_obs.isSome then
          hourlyForecastTemp pdt now hf.periods
        else none
      ([Block.hourlyOut hf.periods display_name target_time], ftemp, [Call.hourlyC])
    | none =>
      match env.forecast with
      | some fc =>
        let ftemp := if opts.show_current ∧ current_obs.isSome then
            fc.periods.head?.bind Period.temperature
          else none
        ([Block.nwsOut fc env.alerts display_name] ++
            (if env.alerts ≠ [] then [Block.enhancedAlerts env.alerts] else []),
          ftemp, [Call.hourlyC, Call.forecastC, Call.alertsC])
      | none => ([], none, [Call.hourlyC, Call.forecastC])
  else
    match env.forecast with
    | some fc =>
      let ftemp := if opts.show_current ∧ current_obs.isSome then
          fc.periods.head?.bind Period.temperature
        else none
      let base := [Block.nwsOut fc env.alerts display_name] ++
        (if env.alerts ≠ [] then [Block.enhancedAlerts env.alerts] else [])
      if winterQuery opts.location then
        (base ++ [Block.accumsOut (extract_accumulations_from_grid pts env.gridData)
            display_name fc.periods],
          ftemp, [Call.forecastC, Call.alertsC, Call.gridDataC])
      else (base, ftemp, [Call.forecastC, Call.alertsC])
    | none => ([], none, [Call.forecastC])

/-- get_weather.py lines 1579-1605: the AQI, astronomy, TAF and fire-weather
facet appends of the regional branch. -/
def extraFacets (env : Env) (opts : Options) (gp : Gridpoint) (display_name : String) :
    List Block × List Call :=
  let aqiBlocks : List Block :=
    if opts.show_aqi then [Block.aqiOut env.aqiCurrent env.aqiForecast display_name]
    else []
  let aqiCalls : List Call :=
    if opts.show_aqi then [Call.aqiCurrentC, Call.aqiForecastC] else []
  let astroBlocks : List Block :=
    if opts.show_astro then
      match get_astronomical_data gp with
      | some a => [Block.astroOut a display_name]
      | none => []
    else []
  let tafBlocks : List Block :=
    if opts.show_taf then
      match env.taf with
      | some t => [Block.tafOut t display_name]
      | none => [Block.tafUnavailableHdr display_name, Block.blankLine,
          Block.tafUnavailableTxt]
    else []
  let tafCalls : List Call := if opts.show_taf then [Call.tafC] else []
  let fireBlocks : List Block :=
    if opts.show_fire then
      [Block.fireOut env.fire (fireAlertsOf env.alerts) display_name]
    else []
  let fireCalls : List Call :=
    if opts.show_fire then [Call.fireC, Call.alertsC] else []
  (aqiBlocks ++ astroBlocks ++ tafBlocks ++ fireBlocks,
    aqiCalls ++ tafCalls ++ fireCalls)

/-- get_weather.py lines 1615-1634: the global (wttr.in) fallback.  The AQI
note is emitted only under `show_aqi and not use_nws`. -/
def wttrSection (env : Env) (opts : Options) (use_nws : Bool) (display_name : String)
    (outputs0 : List Block) : RunResult × List Call :=
  let outputs1 := outputs0 ++
    (if opts.show_aqi ∧ use_nws = false then
      [Block.aqiNoteHdr display_name, Block.blankLine, Block.aqiNoteTxt, Block.blankLine]
    else [])
  let ft := env.wttrForecast opts.location
  let cur := env.wttrCurrent opts.location
  if ft.isSome ∨ cur.isSome then
    (RunResult.output (outputs1 ++ [Block.wttrOut ft cur display_name]),
      [Call.wttrForecastC, Call.wttrCurrentC])
  else (RunResult.fetchFailed, [Call.wttrForecastC, Call.wttrCurrentC])

/-- get_weather.py lines 1474-1634: the whole resolution, returning the
outcome and the fetches in program order.  An out-of-range explicit time
makes `parse_target_time` raise (uncaught) before any fetch. -/
def runMain (env : Env) (opts : Options) (now : DT) (pdt : String → Option DT)
    (pts : String → Option String) : RunResult × List Call :=
  let temporal_detected := is_temporal_query opts.location || opts.force_hourly
  if temporal_detected ∧ parse_target_time opts.location now = PTRes.err then
    (RunResult.crashed, [])
  else
    let target_time : Option DT :=
      if temporal_detected then
        match parse_target_time opts.location now with
        | PTRes.time t => some t
        | _ => none
      else none
    let clean_location := strip_temporal_qualifiers opts.location
    match env.geocode clean_location with
    | none => (RunResult.locationNotFound, [Call.geocodeC])
    | some (lat, lon, display_name) =>
      let use_nws := selectSource opts.source_pref lat lon
      if use_nws then
        match env.gridpoint with
        | some gp =>
          let obsF : Option Obs × List Call :=
            if opts.show_current then (env.stationObs, [Call.stationObsC]) else (none, [])
          let fs := forecastSection env opts now pdt pts temporal_detected target_time
            obsF.1 display_name
          let outputs1 :=
            if opts.show_current then
              match obsF.1 with
              | some o => pyInsert1 fs.1 (Block.obsOut o fs.2.1)
              | none => fs.1 ++ [Block.obsUnavailableHdr, Block.obsUnavailableTxt]
            else fs.1
          let ef := extraFacets env opts gp display_name
          let outputs := outputs1 ++ ef.1
          let trace := [Call.geocodeC, Call.gridpointC] ++ obsF.2 ++ fs.2.2 ++ ef.2
          if outputs ≠ [] then (RunResult.output outputs, trace)
          else
            let ws := wttrSection env opts use_nws display_name outputs
            (ws.1, trace ++ ws.2)
        | none =>
          let ws := wttrSection env opts use_nws display_name []
          (ws.1, [Call.geocodeC, Call.gridpointC] ++ ws.2)
      else
        let ws := wttrSection env opts use_nws display_name []
        (ws.1, [Call.geocodeC] ++ ws.2)

/-! Definitions supporting the claim statements. -/

/-- The 24-hour equivalent of an `h` o'clock am/pm time (the spec's reading:
`8 PM ↦ 20`, `12 PM ↦ 12`, `12 AM ↦ 0`). -/
def to24Hour (h : ℕ) (mer : Meridiem) : ℕ :=
  match mer with
  | .pm => if h = 12 then 12 else h + 12
  | .am => if h = 12 then 0 else h

/-- Is a block the global-provider (wttr) output? -/
def Block.isWttrOut : Block → Bool
  | .wttrOut _ _ _ => true
  | _ => false

/-- An alert read as Extreme/Immediate/Observed. -/
def isExtremeImmediateObserved (a : Alert) : Prop :=
  (a.properties.getD {}).severity.getD "Unknown" = "Extreme" ∧
  (a.properties.getD {}).urgency.getD "Unknown" = "Immediate" ∧
  (a.properties.getD {}).certainty.getD "Unknown" = "Observed"

/-- An alert read as Minor/Future/Possible. -/
def isMinorFuturePossible (a : Alert) : Prop :=
  (a.properties.getD {}).severity.getD "Unknown" = "Minor" ∧
  (a.properties.getD {}).urgency.getD "Unknown" = "Future" ∧
  (a.properties.getD {}).certainty.getD "Unknown" = "Possible"

/-- The spec's accumulation example: a snow series with values 2.0 mm and
50 mm. -/
def sampleSnowGrid : GridData :=
  { snowfallAmount := some
      { values := [⟨some 2, "2025-01-06T12:00:00+00:00/PT6H"⟩,
                   ⟨some 50, "2025-01-07T12:00:00+00:00/PT6H"⟩],
        uom := "wmoUnit:mm" } }

/-- A time-label capability that returns the parsed prefix unchanged. -/
def samplePt : String → Option String := fun s => some s

/-- A one-period standard forecast payload. -/
def c5Fc : ForecastProps := { periods := [{ name := "Tonight", temperature := some 30 }] }

/-- An environment where the hourly fetch fails but the standard forecast
succeeds for a Boston gridpoint. -/
def c5Env : Env :=
  { geocode := fun _ => some (42, -71, "Boston"),
    gridpoint := some {},
    hourlyForecast := none,
    forecast := some c5Fc,
    wttrForecast := fun _ => none,
    wttrCurrent := fun _ => none }

/-- A temporal Boston query with default options. -/
def c5Opts : Options := { location := "Boston at 8 PM" }

/-- An environment where the regional gridpoint fetch fails and the global
provider has data. -/
def c9Env : Env :=
  { geocode := fun _ => some (40, -100, "Testville"),
    gridpoint := none,
    wttrForecast := fun _ => some "ART",
    wttrCurrent := fun _ => none }

/-- AQI requested with automatic source selection (US coordinates). -/
def c9Opts : Options := { location := "Testville", show_aqi := true }

/-- AQI requested with the global provider forced. -/
def c9OptsGlobal : Options :=
  { location := "Testville", show_aqi := true, source_pref := "wttr" }

/-! Theorems. -/

/-- C1: the claim says `strip_temporal_qualifiers "Boston at 8 PM"` returns
exactly `"Boston"`.  It does not: the first substitution pattern
`\s+at\s+\d+.*?(?:am|pm)?` has a lazy `.*?` whose tail is optional, so it
removes only `" at 8"`, the dangling `" PM"` survives every later pattern,
and the function returns `"Boston PM"`.  This theorem evaluates the embedded
function at the failing input. -/
theorem c1_strip_boston_evaluation :
    strip_temporal_qualifiers "Boston at 8 PM" = "Boston PM" ∧
    strip_temporal_qualifiers "Boston at 8 PM" ≠ "Boston" := by
  constructor <;> decide

/-- C8: with override `"auto"`, source selection is regional exactly on the
inclusive box `lat ∈ [24,49] ∧ lon ∈ [-125,-66]`; `"nws"` forces regional and
`"wttr"` forces global for every coordinate; the selector is a total pure
function. -/
theorem c8_source_selection (lat lon : ℚ) :
    (selectSource "auto" lat lon = true ↔
      (24 ≤ lat ∧ lat ≤ 49 ∧ -125 ≤ lon ∧ lon ≤ -66)) ∧
    selectSource "nws" lat lon = true ∧
    selectSource "wttr" lat lon = false := by
  refine ⟨?_, by simp [selectSource], by simp [selectSource]⟩
  simp [selectSource, is_us_location]

/-- C6: the claim says the reported illumination is `100*(1-|phase-4|/4)`
mirrored symmetrically above phase 4, hence within 0..100 with phases 3 and 5
equal.  The code instead overrides phases above 4 with `(2-|phase-4|/4)*100`:
twenty days after the reference new moon the phase index is 5 and the
reported illumination is 175.0 — above 100 and different from phase 3's 75.
This theorem evaluates the embedded function at the failing input. -/
theorem c6_moon_illumination_evaluation :
    calculate_moon_phase 20 = (5, "🌖 Waning Gibbous", 175) ∧
    moonIllumination 3 = 75 ∧
    moonIllumination 5 = 175 ∧
    ¬ moonIllumination 5 ≤ 100 := by
  have h5 : moonIllumination 5 = 175 := by norm_num [moonIllumination]
  have hmod : pyMod 20 (29.53059 : ℚ) = 20 := by norm_num [pyMod]
  have hph : (Int.toNat ⌊pyMod 20 (29.53059 : ℚ) / 29.53059 * 8⌋) % 8 = 5 := by
    rw [hmod]
    have hfl : ⌊(20 : ℚ) / 29.53059 * 8⌋ = 5 := by norm_num
    rw [hfl]
    rfl
  refine ⟨?_, by norm_num [moonIllumination], h5, by rw [h5]; norm_num⟩
  show (let lunar_cycle : ℚ := 29.53059
    let days_into_cycle := pyMod 20 lunar_cycle
    let phase := (Int.toNat ⌊days_into_cycle / lunar_cycle * 8⌋) % 8
    (phase, moon_phase_names.getD phase "🌑 New Moon",
      pyRound (moonIllumination phase) 1)) = (5, "🌖 Waning Gibbous", 175)
  simp only [hph]
  rw [h5]
  norm_num [moon_phase_names, pyRound, roundHalfEven]

/-- One step of the band scan of `parse_aqi_category`. -/
theorem parse_aqi_step (aqi lo hi : ℚ) (info : AqiCategoryInfo)
    (rest : List ((ℚ × ℚ) × AqiCategoryInfo)) :
    (match List.find? (fun e => decide (e.1.1 ≤ aqi ∧ aqi ≤ e.1.2))
        (((lo, hi), info) :: rest) with
      | some e => e.2
      | none => hazardousInfo) =
      if lo ≤ aqi ∧ aqi ≤ hi then info
      else
        (match List.find? (fun e => decide (e.1.1 ≤ aqi ∧ aqi ≤ e.1.2)) rest with
          | some e => e.2
          | none => hazardousInfo) := by
  by_cases h : lo ≤ aqi ∧ aqi ≤ hi
  · rw [List.find?_cons_of_pos _ (by simpa using h), if_pos h]
  · rw [List.find?_cons_of_neg _ (by simpa using h), if_neg h]

/-- Evaluation of the band scan of `parse_aqi_category` as a nested
conditional. -/
theorem parse_aqi_eval (aqi : ℚ) :
    parse_aqi_category aqi =
      if 0 ≤ aqi ∧ aqi ≤ 50 then goodInfo
      else if 51 ≤ aqi ∧ aqi ≤ 100 then moderateInfo
      else if 101 ≤ aqi ∧ aqi ≤ 150 then sensitiveGroupsInfo
      else if 151 ≤ aqi ∧ aqi ≤ 200 then unhealthyInfo
      else if 201 ≤ aqi ∧ aqi ≤ 300 then veryUnhealthyInfo
      else if 301 ≤ aqi ∧ aqi ≤ 500 then hazardousInfo
      else hazardousInfo := by
  unfold parse_aqi_category AQI_CATEGORIES
  rw [parse_aqi_step, parse_aqi_step, parse_aqi_step, parse_aqi_step, parse_aqi_step,
    parse_aqi_step]
  simp [List.find?]

/-- C10: `parse_aqi_category` is total over `ℚ`: a value inside a band
returns that band's info, and every value inside no band — negative, above
500, or in a one-unit gap such as 50.5 — returns the Hazardous info rather
than failing. -/
theorem c10_parse_aqi_total (aqi : ℚ) :
    (0 ≤ aqi ∧ aqi ≤ 50 → parse_aqi_category aqi = goodInfo) ∧
    (51 ≤ aqi ∧ aqi ≤ 100 → parse_aqi_category aqi = moderateInfo) ∧
    (101 ≤ aqi ∧ aqi ≤ 150 → parse_aqi_category aqi = sensitiveGroupsInfo) ∧
    (151 ≤ aqi ∧ aqi ≤ 200 → parse_aqi_category aqi = unhealthyInfo) ∧
    (201 ≤ aqi ∧ aqi ≤ 300 → parse_aqi_category aqi = veryUnhealthyInfo) ∧
    (301 ≤ aqi ∧ aqi ≤ 500 → parse_aqi_category aqi = hazardousInfo) ∧
    ((∀ b ∈ AQI_CATEGORIES, ¬ (b.1.1 ≤ aqi ∧ aqi ≤ b.1.2)) →
      parse_aqi_category aqi = hazardousInfo) ∧
    (aqi < 0 → parse_aqi_category aqi = hazardousInfo) ∧
    (500 < aqi → parse_aqi_category aqi = hazardousInfo) ∧
    parse_aqi_category (101/2) = hazardousInfo := by
  refine ⟨?_, ?_, ?_, ?_, ?_, ?_, ?_, ?_, ?_, ?_⟩
  · intro h
    rw [parse_aqi_eval, if_pos h]
  · intro h
    rw [parse_aqi_eval, if_neg (by rintro ⟨-, hb⟩; linarith [h.1]), if_pos h]
  · intro h
    rw [parse_aqi_eval, if_neg (by rintro ⟨-, hb⟩; linarith [h.1]),
      if_neg (by rintro ⟨-, hb⟩; linarith [h.1]), if_pos h]
  · intro h
    rw [parse_aqi_eval, if_neg (by rintro ⟨-, hb⟩; linarith [h.1]),
      if_neg (by rintro ⟨-, hb⟩; linarith [h.1]),
      if_neg (by rintro ⟨-, hb⟩; linarith [h.1]), if_pos h]
  · intro h
    rw [parse_aqi_eval, if_neg (by rintro ⟨-, hb⟩; linarith [h.1]),
      if_neg (by rintro ⟨-, hb⟩; linarith [h.1]),
      if_neg (by rintro ⟨-, hb⟩; linarith [h.1]),
      if_neg (by rintro ⟨-, hb⟩; linarith [h.1]), if_pos h]
  · intro h
    rw [parse_aqi_eval, if_neg (by rintro ⟨-, hb⟩; linarith [h.1]),
      if_neg (by rintro ⟨-, hb⟩; linarith [h.1]),
      if_neg (by rintro ⟨-, hb⟩; linarith [h.1]),
      if_neg (by rintro ⟨-, hb⟩; linarith [h.1]),
      if_neg (by rintro ⟨-, hb⟩; linarith [h.1]), if_pos h]
  · intro h
    simp only [AQI_CATEGORIES, List.mem_cons, List.not_mem_nil, or_false,
      forall_eq_or_imp, forall_eq] at h
    obtain ⟨h1, h2, h3, h4, h5, h6⟩ := h
    rw [parse_aqi_eval, if_neg (by simpa using h1), if_neg (by simpa using h2),
      if_neg (by simpa using h3), if_neg (by simpa using h4),
      if_neg (by simpa using h5), if_neg (by simpa using h6)]
  · intro h
    rw [parse_aqi_eval, if_neg (by rintro ⟨ha, -⟩; linarith),
      if_neg (by rintro ⟨ha, -⟩; linarith), if_neg (by rintro ⟨ha, -⟩; linarith),
      if_neg (by rintro ⟨ha, -⟩; linarith), if_neg (by rintro ⟨ha, -⟩; linarith),
      if_neg (by rintro ⟨ha, -⟩; linarith)]
  · intro h
    rw [parse_aqi_eval, if_neg (by rintro ⟨-, hb⟩; linarith),
      if_neg (by rintro ⟨-, hb⟩; linarith), if_neg (by rintro ⟨-, hb⟩; linarith),
      if_neg (by rintro ⟨-, hb⟩; linarith), if_neg (by rintro ⟨-, hb⟩; linarith),
      if_neg (by rintro ⟨-, hb⟩; linarith)]
  · rw [parse_aqi_eval]
    norm_num

/-- Inserting into the running result permutes consing. -/
theorem insertByPriority_perm (a : Alert) (l : List Alert) :
    List.Perm (insertByPriority a l) (a :: l) := by
  induction l with
  | nil => simp [insertByPriority]
  | cons b t ih =>
    unfold insertByPriority
    split_ifs with h
    · exact (ih.cons b).trans (List.Perm.swap a b t)
    · exact List.Perm.refl _

/-- `sort_alerts_by_priority` permutes its input. -/
theorem sort_alerts_perm (l : List Alert) :
    List.Perm (sort_alerts_by_priority l) l := by
  induction l with
  | nil => exact List.Perm.refl _
  | cons a t ih =>
    exact (insertByPriority_perm a (sort_alerts_by_priority t)).trans (ih.cons a)

/-- Inserting into a non-increasing list keeps it non-increasing. -/
theorem insertByPriority_pairwise (a : Alert) (l : List Alert)
    (h : l.Pairwise (fun x y => alertPriority y ≤ alertPriority x)) :
    (insertByPriority a l).Pairwise (fun x y => alertPriority y ≤ alertPriority x) := by
  induction l with
  | nil => simp [insertByPriority]
  | cons b t ih =>
    rcases List.pairwise_cons.mp h with ⟨hb, ht⟩
    unfold insertByPriority
    split_ifs with hlt
    · refine List.pairwise_cons.mpr ⟨?_, ih ht⟩
      intro x hx
      rcases List.mem_cons.mp ((insertByPriority_perm a t).mem_iff.mp hx) with rfl | hx'
      · exact le_of_lt hlt
      · exact hb x hx'
    · refine List.pairwise_cons.mpr ⟨?_, h⟩
      intro x hx
      rcases List.mem_cons.mp hx with rfl | hx'
      · exact le_of_not_lt hlt
      · exact le_trans (hb x hx') (le_of_not_lt hlt)

/-- `sort_alerts_by_priority` is non-increasing in priority. -/
theorem sort_alerts_pairwise (l : List Alert) :
    (sort_alerts_by_priority l).Pairwise
      (fun x y => alertPriority y ≤ alertPriority x) := by
  induction l with
  | nil => simp [sort_alerts_by_priority]
  | cons a t ih => exact insertByPriority_pairwise a (sort_alerts_by_priority t) ih

/-- Insertion preserves the sublist of any fixed priority: the inserted
element lands in front of it when it has that priority, and the elements
walked past all have a strictly greater priority. -/
theorem insertByPriority_filter (a : Alert) (l : List Alert) (k : ℕ) :
    (insertByPriority a l).filter (fun x => decide (alertPriority x = k)) =
      if alertPriority a = k then
        a :: l.filter (fun x => decide (alertPriority x = k))
      else l.filter (fun x => decide (alertPriority x = k)) := by
  induction l with
  | nil => by_cases hak : alertPriority a = k <;> simp [insertByPriority, hak]
  | cons b t ih =>
    by_cases hlt : alertPriority a < alertPriority b
    · rw [show insertByPriority a (b :: t) = b :: insertByPriority a t from by
        rw [insertByPriority, if_pos hlt]]
      by_cases hak : alertPriority a = k
      · have hbk : ¬ alertPriority b = k := by
          intro hbk
          rw [hak, hbk] at hlt
          exact lt_irrefl k hlt
        rw [if_pos hak, List.filter_cons_of_neg (by simp [hbk]), ih, if_pos hak,
          List.filter_cons_of_neg (by simp [hbk])]
      · rw [if_neg hak, List.filter_cons, List.filter_cons, ih, if_neg hak]
    · rw [show insertByPriority a (b :: t) = a :: b :: t from by
        rw [insertByPriority, if_neg hlt]]
      by_cases hak : alertPriority a = k
      · rw [if_pos hak, List.filter_cons_of_pos (by simp [hak])]
      · rw [if_neg hak, List.filter_cons_of_neg (by simp [hak])]

/-- Stability of `sort_alerts_by_priority`: for every priority value the
subsequence of alerts carrying it is exactly the input's, in input order. -/
theorem sort_alerts_filter (l : List Alert) (k : ℕ) :
    (sort_alerts_by_priority l).filter (fun x => decide (alertPriority x = k)) =
      l.filter (fun x => decide (alertPriority x = k)) := by
  induction l with
  | nil => rfl
  | cons a t ih =>
    show (insertByPriority a (sort_alerts_by_priority t)).filter _ = _
    rw [insertByPriority_filter]
    by_cases hak : alertPriority a = k <;> simp [List.filter_cons, hak, ih]

/-- An Extreme/Immediate/Observed alert scores 10. -/
theorem eio_priority (a : Alert) (h : isExtremeImmediateObserved a) :
    alertPriority a = 10 := by
  obtain ⟨h1, h2, h3⟩ := h
  simp [alertPriority, calculate_alert_priority, h1, h2, h3,
    ALERT_SEVERITY_WEIGHTS, ALERT_URGENCY_WEIGHTS, ALERT_CERTAINTY_WEIGHTS]

/-- A Minor/Future/Possible alert scores 3. -/
theorem mfp_priority (a : Alert) (h : isMinorFuturePossible a) :
    alertPriority a = 3 := by
  obtain ⟨h1, h2, h3⟩ := h
  simp [alertPriority, calculate_alert_priority, h1, h2, h3,
    ALERT_SEVERITY_WEIGHTS, ALERT_URGENCY_WEIGHTS, ALERT_CERTAINTY_WEIGHTS]

/-- C3: `sort_alerts_by_priority` returns a permutation of its input in
non-increasing score order (score = severity + urgency + certainty weight,
unrecognized strings scoring 0 through the weight tables), equal scores keep
their input order (stability, stated per score value), and in the output no
Minor/Future/Possible alert ever precedes an Extreme/Immediate/Observed
one. -/
theorem c3_rank_alerts (l : List Alert) :
    List.Perm (sort_alerts_by_priority l) l ∧
    (sort_alerts_by_priority l).Pairwise
      (fun a b => alertPriority b ≤ alertPriority a) ∧
    (∀ k : ℕ,
      (sort_alerts_by_priority l).filter (fun x => decide (alertPriority x = k)) =
        l.filter (fun x => decide (alertPriority x = k))) ∧
    (sort_alerts_by_priority l).Pairwise
      (fun a b => ¬ (isMinorFuturePossible a ∧ isExtremeImmediateObserved b)) ∧
    (∀ a, isExtremeImmediateObserved a → alertPriority a = 10) ∧
    (∀ a, isMinorFuturePossible a → alertPriority a = 3) := by
  refine ⟨sort_alerts_perm l, sort_alerts_pairwise l, sort_alerts_filter l, ?_,
    eio_priority, mfp_priority⟩
  refine (sort_alerts_pairwise l).imp ?_
  intro a b hle ⟨hm, he⟩
  rw [mfp_priority a hm, eio_priority b he] at hle
  omega

/-- Decimal digit characters sit in the ASCII range 48-57. -/
theorem decDigit_range (d : ℕ) : 48 ≤ (decDigit d).toNat ∧ (decDigit d).toNat ≤ 57 := by
  unfold decDigit
  split_ifs <;> decide

/-- Every character `natDigits` emits is a decimal digit. -/
theorem natDigits_mem (fuel : ℕ) : ∀ (n : ℕ) (c : Char), c ∈ natDigits fuel n →
    48 ≤ c.toNat ∧ c.toNat ≤ 57 := by
  induction fuel with
  | zero => intro n c h; simp [natDigits] at h
  | succ f ih =>
    intro n c h
    cases n with
    | zero => simp [natDigits] at h
    | succ m =>
      rw [natDigits] at h
      rcases List.mem_append.mp h with h1 | h2
      · exact ih _ _ h1
      · simp only [List.mem_singleton] at h2
        subst h2
        exact decDigit_range _

/-- Every character of `natStr` is a decimal digit. -/
theorem natStr_mem (n : ℕ) (c : Char) (h : c ∈ natStr n) :
    48 ≤ c.toNat ∧ c.toNat ≤ 57 := by
  unfold natStr at h
  split_ifs at h
  · simp only [cs] at h
    rcases List.mem_singleton.mp h with rfl
    decide
  · exact natDigits_mem _ _ _ h

/-- Every character of `intStr` is `'-'` or a decimal digit. -/
theorem intStr_mem (n : ℤ) (c : Char) (h : c ∈ intStr n) :
    c = '-' ∨ (48 ≤ c.toNat ∧ c.toNat ≤ 57) := by
  unfold intStr at h
  split_ifs at h
  · rcases List.mem_cons.mp h with rfl | h'
    · exact Or.inl rfl
    · exact Or.inr (natStr_mem _ _ h')
  · exact Or.inr (natStr_mem _ _ h)

/-- A character above the digit range and different from `'-'` never occurs
in an `intStr`-interpolated comparison string whose fixed parts avoid it. -/
theorem char_not_in_comparison (ch : Char) (a d f : ℤ) (s1 s2 s3 : List Char)
    (h1 : ch ∉ s1) (h2 : ch ∉ s2) (h3 : ch ∉ s3) (hdash : ch ≠ '-')
    (hbig : 57 < ch.toNat) :
    ch ∉ intStr a ++ s1 ++ intStr d ++ s2 ++ intStr f ++ s3 := by
  intro hmem
  have hint : ∀ m : ℤ, ch ∉ intStr m := by
    intro m hm
    rcases intStr_mem m ch hm with h' | ⟨-, h''⟩
    · exact hdash h'
    · omega
  rcases List.mem_append.mp hmem with hm | hm
  · rcases List.mem_append.mp hm with hm' | hm'
    · rcases List.mem_append.mp hm' with hm'' | hm''
      · rcases List.mem_append.mp hm'' with hm3 | hm3
        · rcases List.mem_append.mp hm3 with hm4 | hm4
          · exact hint a hm4
          · exact h1 hm4
        · exact hint d hm3
      · exact h2 hm''
    · exact hint f hm'
  · exact h3 hm

/-- Two packed strings differ when a character is in one and not the other. -/
theorem mk_ne_of_mem_not_mem (ch : Char) (l1 l2 : List Char) (h1 : ch ∈ l1)
    (h2 : ch ∉ l2) : String.mk l1 ≠ String.mk l2 := by
  intro h
  injection h with h'
  exact h2 (h' ▸ h1)

/-- C7: the claim classifies by the exact difference `observed - forecast`,
but the code first rounds it (`diff = round(temp_f - forecast_temp)`): at
observed 72.4 °F and forecast 70 °F the difference is 2.4 > 2, which the
claim calls warmer-than-forecast, yet the code reports "matches forecast". -/
theorem c7_counterexample_rounded_delta :
    observationTempStr (362/5) (some 70) = "72°F (matches forecast 🎯)" ∧
    ¬ |(362 : ℚ)/5 - 70| ≤ 2 := by
  constructor
  · have hd : pyRoundInt ((362 : ℚ)/5 - 70) = 2 := by
      unfold pyRoundInt roundHalfEven
      norm_num
    have ht : pyRoundInt ((362 : ℚ)/5) = 72 := by
      unfold pyRoundInt roundHalfEven
      norm_num
    simp only [observationTempStr, hd, ht]
    rw [if_pos (by decide)]
    decide
  · rw [show (362 : ℚ)/5 - 70 = 12/5 by norm_num, abs_of_pos (by norm_num)]
    norm_num

/-- C7 (amended): with `d = round(observed - forecast)` the code reports
"matches forecast" iff `|d| ≤ 2`, warmer-than-forecast (by the rounded
amount `d`) iff `d > 2`, cooler-than-forecast (by `|d|`) iff `d < -2`, and a
null forecast yields the observed value with no comparison. -/
theorem c7_amended_comparison (temp_f forecast_temp : ℚ) :
    (observationTempStr temp_f none =
      String.mk (intStr (pyRoundInt temp_f) ++ cs "°F")) ∧
    ((observationTempStr temp_f (some forecast_temp) =
        String.mk (intStr (pyRoundInt temp_f) ++ cs "°F (matches forecast 🎯)")) ↔
      |pyRoundInt (temp_f - forecast_temp)| ≤ 2) ∧
    ((observationTempStr temp_f (some forecast_temp) =
        String.mk (intStr (pyRoundInt temp_f) ++ cs "°F (" ++
          intStr (pyRoundInt (temp_f - forecast_temp)) ++ cs "° warmer than " ++
          intStr (pyRoundInt forecast_temp) ++ cs "° forecast)")) ↔
      2 < pyRoundInt (temp_f - forecast_temp)) ∧
    ((observationTempStr temp_f (some forecast_temp) =
        String.mk (intStr (pyRoundInt temp_f) ++ cs "°F (" ++
          intStr |pyRoundInt (temp_f - forecast_temp)| ++ cs "° cooler than " ++
          intStr (pyRoundInt forecast_temp) ++ cs "° forecast)")) ↔
      pyRoundInt (temp_f - forecast_temp) < -2) := by
  set d := pyRoundInt (temp_f - forecast_temp) with hd
  have htgt_w : ∀ a dd f : ℤ, ('🎯' : Char) ∉ intStr a ++ cs "°F (" ++ intStr dd ++
      cs "° warmer than " ++ intStr f ++ cs "° forecast)" := fun a dd f =>
    char_not_in_comparison _ a dd f _ _ _ (by decide) (by decide) (by decide)
      (by decide) (by decide)
  have htgt_c : ∀ a dd f : ℤ, ('🎯' : Char) ∉ intStr a ++ cs "°F (" ++ intStr dd ++
      cs "° cooler than " ++ intStr f ++ cs "° forecast)" := fun a dd f =>
    char_not_in_comparison _ a dd f _ _ _ (by decide) (by decide) (by decide)
      (by decide) (by decide)
  have hw_c : ∀ a dd f : ℤ, ('w' : Char) ∉ intStr a ++ cs "°F (" ++ intStr dd ++
      cs "° cooler than " ++ intStr f ++ cs "° forecast)" := fun a dd f =>
    char_not_in_comparison _ a dd f _ _ _ (by decide) (by decide) (by decide)
      (by decide) (by decide)
  have htgt_m : ('🎯' : Char) ∈ intStr (pyRoundInt temp_f) ++
      cs "°F (matches forecast 🎯)" := List.mem_append_right _ (by decide)
  have hw_w : ∀ a dd f : ℤ, ('w' : Char) ∈ intStr a ++ cs "°F (" ++ intStr dd ++
      cs "° warmer than " ++ intStr f ++ cs "° forecast)" := by
    intro a dd f
    exact List.mem_append_left _ (List.mem_append_left _
      (List.mem_append_right _ (by decide)))
  refine ⟨rfl, ?_, ?_, ?_⟩
  · constructor
    · intro heq
      by_contra habs
      by_cases hp : 0 < d
      · have hcode : observationTempStr temp_f (some forecast_temp) =
            String.mk (intStr (pyRoundInt temp_f) ++ cs "°F (" ++ intStr d ++
              cs "° warmer than " ++ intStr (pyRoundInt forecast_temp) ++
              cs "° forecast)") := by
          simp only [observationTempStr, ← hd]
          rw [if_neg habs, if_pos hp]
        rw [hcode] at heq
        exact mk_ne_of_mem_not_mem '🎯' _ _ htgt_m (htgt_w _ _ _) heq.symm
      · have hcode : observationTempStr temp_f (some forecast_temp) =
            String.mk (intStr (pyRoundInt temp_f) ++ cs "°F (" ++ intStr |d| ++
              cs "° cooler than " ++ intStr (pyRoundInt forecast_temp) ++
              cs "° forecast)") := by
          simp only [observationTempStr, ← hd]
          rw [if_neg habs, if_neg hp]
        rw [hcode] at heq
        exact mk_ne_of_mem_not_mem '🎯' _ _ htgt_m (htgt_c _ _ _) heq.symm
    · intro h
      simp only [observationTempStr, ← hd]
      rw [if_pos h]
  · constructor
    · intro heq
      by_cases habs : |d| ≤ 2
      · exfalso
        have hcode : observationTempStr temp_f (some forecast_temp) =
            String.mk (intStr (pyRoundInt temp_f) ++
              cs "°F (matches forecast 🎯)") := by
          simp only [observationTempStr, ← hd]
          rw [if_pos habs]
        rw [hcode] at heq
        exact mk_ne_of_mem_not_mem '🎯' _ _ htgt_m (htgt_w _ _ _) heq
      · by_cases hp : 0 < d
        · rw [abs_of_pos hp] at habs
          omega
        · exfalso
          have hcode : observationTempStr temp_f (some forecast_temp) =
              String.mk (intStr (pyRoundInt temp_f) ++ cs "°F (" ++ intStr |d| ++
                cs "° cooler than " ++ intStr (pyRoundInt forecast_temp) ++
                cs "° forecast)") := by
            simp only [observationTempStr, ← hd]
            rw [if_neg habs, if_neg hp]
          rw [hcode] at heq
          exact mk_ne_of_mem_not_mem 'w' _ _ (hw_w _ _ _) (hw_c _ _ _) heq.symm
    · intro h
      have habs : ¬ |d| ≤ 2 := by
        rw [abs_of_pos (by omega)]
        omega
      simp only [observationTempStr, ← hd]
      rw [if_neg habs, if_pos (by omega)]
  · constructor
    · intro heq
      by_cases habs : |d| ≤ 2
      · exfalso
        have hcode : observationTempStr temp_f (some forecast_temp) =
            String.mk (intStr (pyRoundInt temp_f) ++
              cs "°F (matches forecast 🎯)") := by
          simp only [observationTempStr, ← hd]
          rw [if_pos habs]
        rw [hcode] at heq
        exact mk_ne_of_mem_not_mem '🎯' _ _ htgt_m (htgt_c _ _ _) heq
      · by_cases hp : 0 < d
        · exfalso
          have hcode : observationTempStr temp_f (some forecast_temp) =
              String.mk (intStr (pyRoundInt temp_f) ++ cs "°F (" ++ intStr d ++
                cs "° warmer than " ++ intStr (pyRoundInt forecast_temp) ++
                cs "° forecast)") := by
            simp only [observationTempStr, ← hd]
            rw [if_neg habs, if_pos hp]
          rw [hcode] at heq
          exact mk_ne_of_mem_not_mem 'w' _ _ (hw_w _ _ _) (hw_c _ _ _) heq
        · rw [abs_of_nonpos (by omega)] at habs
          omega
    · intro h
      have habs : ¬ |d| ≤ 2 := by
        rw [abs_of_nonpos (by omega)]
        omega
      simp only [observationTempStr, ← hd]
      rw [if_neg habs, if_neg (by omega)]

/-- C4: accumulation extraction examines at most the first 8 entries of each
series (truncating every series to 8 leaves the result unchanged); a snow
event is emitted only from a positive value whose converted amount reaches
0.1 in, an ice event only at 0.01 in, a precipitation-probability event only
at 30 percent with the value unchanged; non-positive and null values are
excluded outright; and a unit containing "mm" converts by × 0.03937 — so on
the spec's example series (2.0 mm, 50 mm) only the 50 mm ≈ 1.97 in entry
survives. -/
theorem c4_accumulation_extraction (pt : String → Option String) :
    (∀ gd : Option GridData,
      extract_accumulations_from_grid pt gd =
        extract_accumulations_from_grid pt (gd.map truncateGrid)) ∧
    (∀ su item e, snowItemEvent pt su item = some e →
      ∃ v, item.value = some v ∧ 0 < v ∧ (0.1 : ℚ) ≤ to_inches v su ∧
        e.type = "Snow" ∧ e.unit = "inches" ∧ e.amount = pyRound (to_inches v su) 1) ∧
    (∀ su item v, item.value = some v → v ≤ 0 → snowItemEvent pt su item = none) ∧
    (∀ su item, item.value = none → snowItemEvent pt su item = none) ∧
    (∀ (v : ℚ) (u : String), 0 < v → containsSub (cs "mm") u.data = true →
      to_inches v u = v * 0.03937) ∧
    (∀ iu item e, iceItemEvent pt iu item = some e →
      ∃ v, item.value = some v ∧ 0 < v ∧ (0.01 : ℚ) ≤ to_inches v iu ∧
        e.type = "Ice" ∧ e.unit = "inches" ∧ e.amount = pyRound (to_inches v iu) 2) ∧
    (∀ iu item v, item.value = some v → v ≤ 0 → iceItemEvent pt iu item = none) ∧
    (∀ item e, popItemEvent pt item = some e →
      ∃ v, item.value = some v ∧ 30 ≤ v ∧ e.type = "Precipitation Chance" ∧
        e.unit = "percent" ∧ e.amount = v) ∧
    (∀ item v, item.value = some v → v < 30 → popItemEvent pt item = none) ∧
    extract_accumulations_from_grid samplePt (some sampleSnowGrid) =
      [⟨"Snow", 2, "inches", "2025-01-07T12:00:00+00:00", ""⟩] := by
  refine ⟨?_, ?_, ?_, ?_, ?_, ?_, ?_, ?_, ?_, ?_⟩
  · intro gd
    rcases gd with _ | ⟨pop, snow, ice⟩
    · rfl
    · cases pop <;> cases snow <;> cases ice <;>
        simp [extract_accumulations_from_grid, truncateGrid, truncateGridSeries,
          List.take_take]
  · intro su item e h
    obtain ⟨val, vt⟩ := item
    rcases val with _ | v
    · exact absurd h (by simp [snowItemEvent])
    · simp only [snowItemEvent] at h
      split_ifs at h with hc hT hth
      · rcases hpt : pt (timePart vt) with _ | ts <;> rw [hpt] at h
        · exact absurd h (by simp)
        · injection h with h'
          exact ⟨v, rfl, hc.2, hth, by rw [← h'], by rw [← h'], by rw [← h']⟩
      · rcases hpt : pt (timePart vt) with _ | ts <;> rw [hpt] at h <;>
          exact absurd h (by simp)
  · intro su item v hv hle
    obtain ⟨val, vt⟩ := item
    simp only at hv
    subst hv
    simp only [snowItemEvent]
    rw [if_neg (by rintro ⟨-, h0⟩; linarith)]
  · intro su item hv
    obtain ⟨val, vt⟩ := item
    simp only at hv
    subst hv
    simp [snowItemEvent]
  · intro v u hv hmm
    unfold to_inches
    rw [if_neg (by rintro (rfl | hle) <;> linarith), if_pos hmm]
  · intro iu item e h
    obtain ⟨val, vt⟩ := item
    rcases val with _ | v
    · exact absurd h (by simp [iceItemEvent])
    · simp only [iceItemEvent] at h
      split_ifs at h with hc hth
      · rcases hpt : pt (timePart vt) with _ | ts <;> rw [hpt] at h
        · exact absurd h (by simp)
        · injection h with h'
          exact ⟨v, rfl, hc.2, hth, by rw [← h'], by rw [← h'], by rw [← h']⟩
      · rcases hpt : pt (timePart vt) with _ | ts <;> rw [hpt] at h <;>
          exact absurd h (by simp)
  · intro iu item v hv hle
    obtain ⟨val, vt⟩ := item
    simp only at hv
    subst hv
    simp only [iceItemEvent]
    rw [if_neg (by rintro ⟨-, h0⟩; linarith)]
  · intro item e h
    obtain ⟨val, vt⟩ := item
    rcases val with _ | v
    · exact absurd h (by simp [popItemEvent])
    · simp only [popItemEvent] at h
      split_ifs at h with hc
      rcases hpt : pt (timePart vt) with _ | ts <;> rw [hpt] at h
      · exact absurd h (by simp)
      · injection h with h'
        exact ⟨v, rfl, hc.2, by rw [← h'], by rw [← h'], by rw [← h']⟩
  · intro item v hv hlt
    obtain ⟨val, vt⟩ := item
    simp only at hv
    subst hv
    simp only [popItemEvent]
    rw [if_neg (by rintro ⟨-, h30⟩; linarith)]
  · have hconv1 : to_inches 2 "wmoUnit:mm" = 0.07874 := by
      unfold to_inches
      rw [if_neg (by rintro (h | h) <;> norm_num at h), if_pos (by decide)]
      norm_num
    have hconv2 : to_inches 50 "wmoUnit:mm" = 1.9685 := by
      unfold to_inches
      rw [if_neg (by rintro (h | h) <;> norm_num at h), if_pos (by decide)]
      norm_num
    have hr : pyRound (1.9685 : ℚ) 1 = 2 := by
      unfold pyRound roundHalfEven
      norm_num
    have e1 : snowItemEvent samplePt "wmoUnit:mm"
        ⟨some 2, "2025-01-06T12:00:00+00:00/PT6H"⟩ = none := by
      simp only [snowItemEvent, samplePt]
      rw [if_pos (by norm_num), if_pos (by decide)]
      rw [hconv1, if_neg (by norm_num)]
    have e2 : snowItemEvent samplePt "wmoUnit:mm"
        ⟨some 50, "2025-01-07T12:00:00+00:00/PT6H"⟩ =
        some ⟨"Snow", 2, "inches", "2025-01-07T12:00:00+00:00", ""⟩ := by
      simp only [snowItemEvent, samplePt]
      rw [if_pos (by norm_num), if_pos (by decide)]
      rw [hconv2, if_pos (by norm_num), hr]
      rw [show timePart "2025-01-07T12:00:00+00:00/PT6H" =
        "2025-01-07T12:00:00+00:00" from by decide]
    simp [extract_accumulations_from_grid, sampleSnowGrid, e1, e2]

/-- C2: the claim quantifies over every query containing an explicit clock
time with an am/pm marker, but the time regex of `parse_target_time` matches
at the first number of the query: "Apt 5 Boston at 8 PM" contains the clock
time "8 PM" (first conjunct) and is detected as temporal, yet the parsed
hour is 5 — not 20, the 24-hour equivalent of the stated clock time. -/
theorem c2_counterexample_first_number :
    searchPat matchNumAmPm (lowerCs "Apt 5 Boston at 8 PM") = true ∧
    is_temporal_query "Apt 5 Boston at 8 PM" = true ∧
    parse_target_time "Apt 5 Boston at 8 PM" ⟨0, 10, 15, 30, 123456⟩ =
      PTRes.time ⟨1, 5, 0, 0, 0⟩ ∧
    ¬ (5 : ℕ) = to24Hour 8 Meridiem.pm := by
  exact ⟨by decide, by decide, by decide, by decide⟩

/-- C2 (amended): for every query whose first numeric token is the explicit
clock time and carries the am/pm marker (i.e. the match `parse_target_time`'s
time regex finds has group 3 set), with clock hour 1..12 and minute ≤ 59,
and given the query contains a digits-then-am/pm occurrence (the temporal
pattern): temporal intent is detected, the parsed target time carries the
24-hour equivalent hour and the stated minute with seconds zeroed, it rolls
forward exactly one day when the stated time is earlier than `now`, and it
is never in the past relative to `now`. -/
theorem c2_amended_explicit_time (q : String) (now : DT) (h m : ℕ) (mer : Meridiem)
    (hval : now.valid)
    (hfind : findFirstTime (lowerCs q) = some (h, m, some mer))
    (hh1 : 1 ≤ h) (hh2 : h ≤ 12) (hm : m ≤ 59)
    (hpat : searchPat matchNumAmPm (lowerCs q) = true) :
    is_temporal_query q = true ∧
    ∃ t : DT, parse_target_time q now = PTRes.time t ∧
      t.hour = to24Hour h mer ∧ t.minute = m ∧ t.second = 0 ∧ t.micro = 0 ∧
      (DT.toMicro ⟨now.day, to24Hour h mer, m, 0, 0⟩ < now.toMicro →
        t = ⟨now.day + 1, to24Hour h mer, m, 0, 0⟩) ∧
      (¬ DT.toMicro ⟨now.day, to24Hour h mer, m, 0, 0⟩ < now.toMicro →
        t = ⟨now.day, to24Hour h mer, m, 0, 0⟩) ∧
      ¬ t.toMicro < now.toMicro := by
  have htemp : is_temporal_query q = true := by
    simp only [is_temporal_query]
    rw [hpat]
    simp
  have h24 : (if some mer = some Meridiem.pm ∧ h ≠ 12 then h + 12
      else if some mer = some Meridiem.am ∧ h = 12 then 0 else h) = to24Hour h mer := by
    cases mer <;> by_cases h12 : h = 12 <;> simp [to24Hour, h12]
  have hrange : to24Hour h mer ≤ 23 := by
    cases mer <;> simp only [to24Hour] <;> split_ifs <;> omega
  have hparse : parse_target_time q now = PTRes.time
      (if DT.toMicro ⟨now.day, to24Hour h mer, m, 0, 0⟩ < now.toMicro
        then ⟨now.day + 1, to24Hour h mer, m, 0, 0⟩
        else ⟨now.day, to24Hour h mer, m, 0, 0⟩) := by
    simp only [parse_target_time]
    rw [hfind]
    simp only [h24]
    rw [if_pos ⟨hrange, hm⟩]
  obtain ⟨hhour, hmin, hsec, hmicro⟩ := hval
  by_cases hroll : DT.toMicro ⟨now.day, to24Hour h mer, m, 0, 0⟩ < now.toMicro
  · refine ⟨htemp, ⟨now.day + 1, to24Hour h mer, m, 0, 0⟩,
      by rw [hparse, if_pos hroll], rfl, rfl, rfl, rfl, fun _ => rfl,
      fun hc => absurd hroll hc, ?_⟩
    have hk : to24Hour h mer ≤ 23 := hrange
    revert hroll
    generalize to24Hour h mer = k at hk ⊢
    intro hroll
    unfold DT.toMicro at hroll ⊢
    simp only at hroll ⊢
    omega
  · refine ⟨htemp, ⟨now.day, to24Hour h mer, m, 0, 0⟩,
      by rw [hparse, if_neg hroll], rfl, rfl, rfl, rfl,
      fun hc => absurd hc hroll, fun _ => rfl, ?_⟩
    exact hroll

/-- Witness for C2 (amended) at "Boston at 8 PM" with `now` = day 0,
21:30:00: 20:00 is already past, so the target is day 1, 20:00. -/
theorem c2_amended_explicit_time_witness :
    is_temporal_query "Boston at 8 PM" = true ∧
    ∃ t : DT, parse_target_time "Boston at 8 PM" ⟨0, 21, 30, 0, 0⟩ = PTRes.time t ∧
      t.hour = to24Hour 8 Meridiem.pm ∧ t.minute = 0 ∧ t.second = 0 ∧ t.micro = 0 ∧
      (DT.toMicro ⟨(⟨0, 21, 30, 0, 0⟩ : DT).day, to24Hour 8 Meridiem.pm, 0, 0, 0⟩ <
          DT.toMicro ⟨0, 21, 30, 0, 0⟩ →
        t = ⟨(⟨0, 21, 30, 0, 0⟩ : DT).day + 1, to24Hour 8 Meridiem.pm, 0, 0, 0⟩) ∧
      (¬ DT.toMicro ⟨(⟨0, 21, 30, 0, 0⟩ : DT).day, to24Hour 8 Meridiem.pm, 0, 0, 0⟩ <
          DT.toMicro ⟨0, 21, 30, 0, 0⟩ →
        t = ⟨(⟨0, 21, 30, 0, 0⟩ : DT).day, to24Hour 8 Meridiem.pm, 0, 0, 0⟩) ∧
      ¬ t.toMicro < DT.toMicro ⟨0, 21, 30, 0, 0⟩ :=
  c2_amended_explicit_time "Boston at 8 PM" ⟨0, 21, 30, 0, 0⟩ 8 0 Meridiem.pm
    (by decide) (by decide) (by decide) (by decide) (by decide) (by decide)

/-- Membership is preserved by Python's `insert(1, ·)`. -/
theorem mem_pyInsert1 {α : Type} {a : α} (l : List α) (b : α) (h : a ∈ l) :
    a ∈ pyInsert1 l b := by
  cases l with
  | nil => simp at h
  | cons x t =>
    simp only [pyInsert1]
    rcases List.mem_cons.mp h with rfl | h'
    · exact List.mem_cons_self _ _
    · exact List.mem_cons_of_mem _ (List.mem_cons_of_mem _ h')

/-- No facet block appended by lines 1579-1605 is the wttr output. -/
theorem extraFacets_blocks_no_wttr (env : Env) (opts : Options) (gp : Gridpoint)
    (d : String) : ∀ b ∈ (extraFacets env opts gp d).1, b.isWttrOut = false := by
  intro b hb
  cases b <;> try rfl
  case wttrOut ft cur nm =>
    exfalso
    simp only [extraFacets, List.mem_append] at hb
    rcases hb with ((h | h) | h) | h <;> (repeat' split at h) <;> simp_all

/-- Lines 1579-1605 never fetch from the global provider. -/
theorem extraFacets_calls_no_wttr (env : Env) (opts : Options) (gp : Gridpoint)
    (d : String) :
    Call.wttrForecastC ∉ (extraFacets env opts gp d).2 ∧
    Call.wttrCurrentC ∉ (extraFacets env opts gp d).2 := by
  constructor <;>
    · intro hmem
      simp only [extraFacets, List.mem_append] at hmem
      rcases hmem with (h | h) | h <;> (repeat' split at h) <;> simp_all

/-- The forecast section under temporal intent when the hourly payload is
absent but the standard forecast succeeds: hourly is fetched, then the
standard forecast and alerts, and the standard forecast is reported. -/
theorem forecastSection_hourly_fallback (env : Env) (opts : Options) (now : DT)
    (pdt : String → Option DT) (pts : String → Option String) (td : Bool)
    (htd : td = true) (tt : Option DT) (obs : Option Obs) (d : String)
    (fc : ForecastProps) (hh : env.hourlyForecast = none)
    (hf : env.forecast = some fc) :
    forecastSection env opts now pdt pts td tt obs d =
      ([Block.nwsOut fc env.alerts d] ++
          (if env.alerts ≠ [] then [Block.enhancedAlerts env.alerts] else []),
        (if opts.show_current ∧ obs.isSome then fc.periods.head?.bind Period.temperature
          else none),
        [Call.hourlyC, Call.forecastC, Call.alertsC]) := by
  subst htd
  unfold forecastSection
  rw [if_pos rfl, hh, hf]

/-- C5: under temporal intent with a gridpoint in hand, `main` attempts the
hourly endpoint first; when the hourly fetch fails (or its payload is falsy)
and the standard forecast succeeds, the standard multi-period forecast is
reported, and the run never touches the global provider — no wttr block in
the output and no wttr fetch in the trace. -/
theorem c5_hourly_fallback (env : Env) (opts : Options) (now : DT)
    (pdt : String → Option DT) (pts : String → Option String) (lat lon : ℚ)
    (display : String) (gp : Gridpoint) (fc : ForecastProps)
    (htmp : (is_temporal_query opts.location || opts.force_hourly) = true)
    (herr : parse_target_time opts.location now ≠ PTRes.err)
    (hgeo : env.geocode (strip_temporal_qualifiers opts.location) =
      some (lat, lon, display))
    (hsel : selectSource opts.source_pref lat lon = true)
    (hgp : env.gridpoint = some gp)
    (hh : env.hourlyForecast = none)
    (hf : env.forecast = some fc) :
    ∃ blocks pre post,
      (runMain env opts now pdt pts).1 = RunResult.output blocks ∧
      Block.nwsOut fc env.alerts display ∈ blocks ∧
      (∀ b ∈ blocks, b.isWttrOut = false) ∧
      (runMain env opts now pdt pts).2 =
        pre ++ Call.hourlyC :: Call.forecastC :: post ∧
      Call.hourlyC ∉ pre ∧
      Call.wttrForecastC ∉ (runMain env opts now pdt pts).2 ∧
      Call.wttrCurrentC ∉ (runMain env opts now pdt pts).2 := by
  have hef1 := extraFacets_blocks_no_wttr env opts gp display
  have hef2 := extraFacets_calls_no_wttr env opts gp display
  have hmem_b1 : ∀ b ∈ (if env.alerts ≠ [] then [Block.enhancedAlerts env.alerts]
      else []), b.isWttrOut = false := by
    intro b hb
    split at hb
    · simp only [List.mem_singleton] at hb
      subst hb
      rfl
    · simp at hb
  by_cases hsc : opts.show_current
  · rcases hobs : env.stationObs with _ | o
    · -- show_current, station observation unavailable
      have hrun : runMain env opts now pdt pts =
          (RunResult.output
            ((Block.nwsOut fc env.alerts display ::
                (if env.alerts ≠ [] then [Block.enhancedAlerts env.alerts] else [])) ++
              [Block.obsUnavailableHdr, Block.obsUnavailableTxt] ++
              (extraFacets env opts gp display).1),
            Call.geocodeC :: Call.gridpointC :: Call.stationObsC :: Call.hourlyC ::
              Call.forecastC :: Call.alertsC :: (extraFacets env opts gp display).2) := by
        simp only [runMain]
        rw [if_neg (fun hc => herr hc.2), hgeo]
        try dsimp only
        rw [hsel]
        simp only [if_pos rfl]
        rw [hgp]
        try dsimp only
        rw [if_pos hsc,
          forecastSection_hourly_fallback env opts now pdt pts _ htmp _ _ display fc hh hf]
        try dsimp only
        rw [hobs]
        try dsimp only
        rw [if_pos hsc]
        try dsimp only
        rw [if_pos (by simp)]
        simp
      refine ⟨(Block.nwsOut fc env.alerts display ::
          (if env.alerts ≠ [] then [Block.enhancedAlerts env.alerts] else [])) ++
          [Block.obsUnavailableHdr, Block.obsUnavailableTxt] ++
          (extraFacets env opts gp display).1,
        [Call.geocodeC, Call.gridpointC, Call.stationObsC],
        Call.alertsC :: (extraFacets env opts gp display).2, ?_, ?_, ?_, ?_, ?_, ?_, ?_⟩
      · rw [hrun]
      · simp
      · intro b hb
        simp only [List.mem_append, List.mem_cons] at hb
        rcases hb with ((rfl | hb) | (rfl | rfl | hb)) | hb
        · rfl
        · exact hmem_b1 b hb
        · rfl
        · rfl
        · simp at hb
        · exact hef1 b hb
      · rw [hrun]
        simp
      · simp
      · rw [hrun]
        simp only [List.mem_cons]
        rintro (h | h | h | h | h | h | h) <;> first
          | exact Call.noConfusion h
          | exact hef2.1 h
      · rw [hrun]
        simp only [List.mem_cons]
        rintro (h | h | h | h | h | h | h) <;> first
          | exact Call.noConfusion h
          | exact hef2.2 h
    · -- show_current, observation present: it is inserted at index 1
      have hrun : runMain env opts now pdt pts =
          (RunResult.output
            ((Block.nwsOut fc env.alerts display ::
                Block.obsOut o (if opts.show_current ∧ (some o).isSome then
                    fc.periods.head?.bind Period.temperature
                  else none) ::
                (if env.alerts ≠ [] then [Block.enhancedAlerts env.alerts] else [])) ++
              (extraFacets env opts gp display).1),
            Call.geocodeC :: Call.gridpointC :: Call.stationObsC :: Call.hourlyC ::
              Call.forecastC :: Call.alertsC :: (extraFacets env opts gp display).2) := by
        simp only [runMain]
        rw [if_neg (fun hc => herr hc.2), hgeo]
        try dsimp only
        rw [hsel]
        simp only [if_pos rfl]
        rw [hgp]
        try dsimp only
        rw [if_pos hsc,
          forecastSection_hourly_fallback env opts now pdt pts _ htmp _ _ display fc hh hf]
        try dsimp only
        rw [hobs]
        try dsimp only
        rw [if_pos hsc]
        try dsimp only
        rw [if_pos (by simp [pyInsert1])]
        simp [pyInsert1]
      refine ⟨(Block.nwsOut fc env.alerts display ::
          Block.obsOut o (if opts.show_current ∧ (some o).isSome then
              fc.periods.head?.bind Period.temperature
            else none) ::
          (if env.alerts ≠ [] then [Block.enhancedAlerts env.alerts] else [])) ++
          (extraFacets env opts gp display).1,
        [Call.geocodeC, Call.gridpointC, Call.stationObsC],
        Call.alertsC :: (extraFacets env opts gp display).2, ?_, ?_, ?_, ?_, ?_, ?_, ?_⟩
      · rw [hrun]
      · simp
      · intro b hb
        simp only [List.mem_append, List.mem_cons] at hb
        rcases hb with (rfl | rfl | hb) | hb
        · rfl
        · rfl
        · exact hmem_b1 b hb
        · exact hef1 b hb
      · rw [hrun]
        simp
      · simp
      · rw [hrun]
        simp only [List.mem_cons]
        rintro (h | h | h | h | h | h | h) <;> first
          | exact Call.noConfusion h
          | exact hef2.1 h
      · rw [hrun]
        simp only [List.mem_cons]
        rintro (h | h | h | h | h | h | h) <;> first
          | exact Call.noConfusion h
          | exact hef2.2 h
  · -- observation not requested
    have hrun : runMain env opts now pdt pts =
        (RunResult.output
          ((Block.nwsOut fc env.alerts display ::
              (if env.alerts ≠ [] then [Block.enhancedAlerts env.alerts] else [])) ++
            (extraFacets env opts gp display).1),
          Call.geocodeC :: Call.gridpointC :: Call.hourlyC :: Call.forecastC ::
            Call.alertsC :: (extraFacets env opts gp display).2) := by
      simp only [runMain]
      rw [if_neg (fun hc => herr hc.2), hgeo]
      try dsimp only
      rw [hsel]
      simp only [if_pos rfl]
      rw [hgp]
      try dsimp only
      rw [if_neg hsc,
        forecastSection_hourly_fallback env opts now pdt pts _ htmp _ _ display fc hh hf]
      try dsimp only
      rw [if_neg hsc]
      try dsimp only
      rw [if_pos (by simp)]
      simp
    refine ⟨(Block.nwsOut fc env.alerts display ::
        (if env.alerts ≠ [] then [Block.enhancedAlerts env.alerts] else [])) ++
        (extraFacets env opts gp display).1,
      [Call.geocodeC, Call.gridpointC],
      Call.alertsC :: (extraFacets env opts gp display).2, ?_, ?_, ?_, ?_, ?_, ?_, ?_⟩
    · rw [hrun]
    · simp
    · intro b hb
      simp only [List.mem_append, List.mem_cons] at hb
      rcases hb with (rfl | hb) | hb
      · rfl
      · exact hmem_b1 b hb
      · exact hef1 b hb
    · rw [hrun]
      simp
    · simp
    · rw [hrun]
      simp only [List.mem_cons]
      rintro (h | h | h | h | h | h) <;> first
        | exact Call.noConfusion h
        | exact hef2.1 h
    · rw [hrun]
      simp only [List.mem_cons]
      rintro (h | h | h | h | h | h) <;> first
        | exact Call.noConfusion h
        | exact hef2.2 h

/-- Witness for C5: the concrete Boston run — hourly fails, the standard
forecast is reported, the global provider is never consulted. -/
theorem c5_hourly_fallback_witness :
    ∃ blocks pre post,
      (runMain c5Env c5Opts ⟨0, 10, 15, 30, 123456⟩ (fun _ => none)
        (fun _ => none)).1 = RunResult.output blocks ∧
      Block.nwsOut c5Fc c5Env.alerts "Boston" ∈ blocks ∧
      (∀ b ∈ blocks, b.isWttrOut = false) ∧
      (runMain c5Env c5Opts ⟨0, 10, 15, 30, 123456⟩ (fun _ => none)
        (fun _ => none)).2 = pre ++ Call.hourlyC :: Call.forecastC :: post ∧
      Call.hourlyC ∉ pre ∧
      Call.wttrForecastC ∉ (runMain c5Env c5Opts ⟨0, 10, 15, 30, 123456⟩
        (fun _ => none) (fun _ => none)).2 ∧
      Call.wttrCurrentC ∉ (runMain c5Env c5Opts ⟨0, 10, 15, 30, 123456⟩
        (fun _ => none) (fun _ => none)).2 :=
  c5_hourly_fallback c5Env c5Opts ⟨0, 10, 15, 30, 123456⟩ (fun _ => none)
    (fun _ => none) 42 (-71) "Boston" {} c5Fc (by decide) (by decide) rfl
    (by decide) rfl rfl rfl

/-- C9: the claim covers the case where the regional path was selected first
but yielded nothing; there the code omits the AQI facet silently.  Concrete
run: AQI requested, `auto` selection picks regional for (40, -100), the
gridpoint fetch fails, the global provider serves the output — and it
contains neither an AQI-unavailable note nor any AQI block (the note is
guarded by `show_aqi and not use_nws`, line 1616). -/
theorem c9_counterexample_fallback_no_note :
    c9Opts.show_aqi = true ∧
    selectSource c9Opts.source_pref 40 (-100) = true ∧
    c9Env.gridpoint = none ∧
    runMain c9Env c9Opts ⟨0, 10, 15, 30, 123456⟩ (fun _ => none) (fun _ => none) =
      (RunResult.output [Block.wttrOut (some "ART") none "Testville"],
        [Call.geocodeC, Call.gridpointC, Call.wttrForecastC, Call.wttrCurrentC]) ∧
    Block.aqiNoteTxt ∉ [Block.wttrOut (some "ART") none "Testville"] ∧
    (∀ c f n, Block.aqiOut c f n ∉ [Block.wttrOut (some "ART") none "Testville"]) := by
  refine ⟨rfl, by decide, rfl, by decide, by decide, ?_⟩
  intro c f n
  simp

/-- C9 (amended): the AQI-unavailable note appears exactly when AQI was
requested and the global provider was chosen by source selection itself
(override `wttr`, or `auto` outside the regional box) and the global fetch
yields data; when the regional path was selected first and fell through
(gridpoint absent), the AQI facet is silently omitted — no note and no AQI
block in the output. -/
theorem c9_amended_aqi_note (env : Env) (opts : Options) (now : DT)
    (pdt : String → Option DT) (pts : String → Option String) (lat lon : ℚ)
    (display : String)
    (hcrash : ¬ ((is_temporal_query opts.location || opts.force_hourly) = true ∧
      parse_target_time opts.location now = PTRes.err))
    (hgeo : env.geocode (strip_temporal_qualifiers opts.location) =
      some (lat, lon, display))
    (haqi : opts.show_aqi = true) :
    (selectSource opts.source_pref lat lon = false →
      ((env.wttrForecast opts.location).isSome ∨
        (env.wttrCurrent opts.location).isSome) →
      ∃ blocks, (runMain env opts now pdt pts).1 = RunResult.output blocks ∧
        Block.aqiNoteHdr display ∈ blocks ∧ Block.aqiNoteTxt ∈ blocks) ∧
    (selectSource opts.source_pref lat lon = true → env.gridpoint = none →
      ((env.wttrForecast opts.location).isSome ∨
        (env.wttrCurrent opts.location).isSome) →
      (runMain env opts now pdt pts).1 = RunResult.output
        [Block.wttrOut (env.wttrForecast opts.location)
          (env.wttrCurrent opts.location) display] ∧
      Block.aqiNoteTxt ∉ [Block.wttrOut (env.wttrForecast opts.location)
        (env.wttrCurrent opts.location) display] ∧
      (∀ c f n, Block.aqiOut c f n ∉ [Block.wttrOut (env.wttrForecast opts.location)
        (env.wttrCurrent opts.location) display])) := by
  constructor
  · intro hsel hw
    have hrun : runMain env opts now pdt pts =
        (RunResult.output
          (([] ++ [Block.aqiNoteHdr display, Block.blankLine, Block.aqiNoteTxt,
              Block.blankLine]) ++
            [Block.wttrOut (env.wttrForecast opts.location)
              (env.wttrCurrent opts.location) display]),
          Call.geocodeC :: [Call.wttrForecastC, Call.wttrCurrentC]) := by
      simp only [runMain]
      rw [if_neg hcrash, hgeo]
      try dsimp only
      rw [hsel]
      simp only [Bool.false_eq_true, if_false]
      unfold wttrSection
      rw [if_pos (show opts.show_aqi = true ∧ false = false from ⟨haqi, rfl⟩)]
      try dsimp only
      rw [if_pos hw]
      rfl
    rw [hrun]
    exact ⟨_, rfl, by simp, by simp⟩
  · intro hsel hgp hw
    have hrun : runMain env opts now pdt pts =
        (RunResult.output
          (([] ++ ([] : List Block)) ++
            [Block.wttrOut (env.wttrForecast opts.location)
              (env.wttrCurrent opts.location) display]),
          Call.geocodeC :: Call.gridpointC :: [Call.wttrForecastC, Call.wttrCurrentC]) := by
      simp only [runMain]
      rw [if_neg hcrash, hgeo]
      try dsimp only
      rw [hsel]
      simp only [eq_self_iff_true, if_true]
      rw [hgp]
      try dsimp only
      unfold wttrSection
      rw [if_neg (show ¬ (opts.show_aqi = true ∧ true = false) from by simp)]
      try dsimp only
      rw [if_pos hw]
      rfl
    rw [hrun]
    refine ⟨by simp, by simp, ?_⟩
    intro c f n
    simp

/-- Witness for C9 (amended): the concrete forced-global Testville run. -/
theorem c9_amended_aqi_note_witness :
    (selectSource c9OptsGlobal.source_pref 40 (-100) = false →
      ((c9Env.wttrForecast c9OptsGlobal.location).isSome ∨
        (c9Env.wttrCurrent c9OptsGlobal.location).isSome) →
      ∃ blocks, (runMain c9Env c9OptsGlobal ⟨0, 10, 15, 30, 123456⟩ (fun _ => none)
          (fun _ => none)).1 = RunResult.output blocks ∧
        Block.aqiNoteHdr "Testville" ∈ blocks ∧ Block.aqiNoteTxt ∈ blocks) ∧
    (selectSource c9OptsGlobal.source_pref 40 (-100) = true →
      c9Env.gridpoint = none →
      ((c9Env.wttrForecast c9OptsGlobal.location).isSome ∨
        (c9Env.wttrCurrent c9OptsGlobal.location).isSome) →
      (runMain c9Env c9OptsGlobal ⟨0, 10, 15, 30, 123456⟩ (fun _ => none)
          (fun _ => none)).1 = RunResult.output
        [Block.wttrOut (c9Env.wttrForecast c9OptsGlobal.location)
          (c9Env.wttrCurrent c9OptsGlobal.location) "Testville"] ∧
      Block.aqiNoteTxt ∉ [Block.wttrOut (c9Env.wttrForecast c9OptsGlobal.location)
        (c9Env.wttrCurrent c9OptsGlobal.location) "Testville"] ∧
      (∀ c f n, Block.aqiOut c f n ∉
        [Block.wttrOut (c9Env.wttrForecast c9OptsGlobal.location)
          (c9Env.wttrCurrent c9OptsGlobal.location) "Testville"])) :=
  c9_amended_aqi_note c9Env c9OptsGlobal ⟨0, 10, 15, 30, 123456⟩ (fun _ => none)
    (fun _ => none) 40 (-100) "Testville" (by decide) rfl rfl

end Weather
